import Mathlib

/-! Library management: the book store and its borrowing engine.

A shallow embedding of `book-service/app/datasources/database` (the Go
structs of `db.go` and the PostgreSQL store of `postgres_db.go`).

* The database is a pair of tables (`books`, `borrowing_records`), each a list
  of rows.  Every SQL statement the store issues is a constructor of `Sql`
  and has its effect on the tables written out.
* The pgx pool is a `Conn`: the committed tables, the working copy of the
  transaction that is open (if any), and the trace of the calls made so far.
* What the store cannot decide is supplied by a `Backend`: which calls fail
  (and with which error), the clock read by `time.Now()`, and the key the
  database gives to an inserted row.
* Go `int` values and the `stock` column are integers, instants are integer
  nanoseconds.  The one computation the store makes in Go on a stock, the
  `stock - 1` of `BorrowBook`, wraps around at `math.MinInt64` as the 64-bit
  `int` does; the `stock + 1` of `ReturnBook` is computed by the database.
-/

namespace Go

/-- Go `error` values: `errorString` is what `errors.New` and `fmt.Errorf`
without a wrapping verb build, `wrapError` what `fmt.Errorf` builds for a
format ending in the wrapping verb: the whole message and the wrapped cause. -/
inductive GoError where
  | errorString (msg : String)
  | wrapError (msg : String) (err : GoError)
deriving DecidableEq, Repr

/-- The method `Error()`: the message of an error. -/
def GoError.Error : GoError → String
  | .errorString msg => msg
  | .wrapError msg _ => msg

/-- The method `Unwrap()`: the wrapped cause, if any. -/
def GoError.Unwrap : GoError → Option GoError
  | .errorString _ => none
  | .wrapError _ err => some err

/-- Plain `fmt.Errorf(text)`: a format without verbs. -/
def Errorf (text : String) : GoError := .errorString text

/-- Wrapping `fmt.Errorf(context + ": %w", err)`. -/
def ErrorfW (context : String) (err : GoError) : GoError :=
  .wrapError (context ++ ": " ++ err.Error) err

/-- Instants of `time.Time`, in nanoseconds since the zero time. -/
abbrev Time := Int

/-- Spans of `time.Duration`, in nanoseconds. -/
abbrev Duration := Int

/-- Constant `time.Nanosecond`. -/
def Nanosecond : Duration := 1
/-- Constant `time.Microsecond`. -/
def Microsecond : Duration := 1000 * Nanosecond
/-- Constant `time.Millisecond`. -/
def Millisecond : Duration := 1000 * Microsecond
/-- Constant `time.Second`. -/
def Second : Duration := 1000 * Millisecond
/-- Constant `time.Minute`. -/
def Minute : Duration := 60 * Second
/-- Constant `time.Hour`. -/
def Hour : Duration := 60 * Minute

/-- The method `Time.Add`. -/
def Time.Add (t : Time) (d : Duration) : Time := t + d

/-- The method `Time.IsZero`: whether the instant is the zero time. -/
def Time.IsZero (t : Time) : Bool := decide (t = 0)

/-- The method `Time.After`: whether `t` is later than `u`. -/
def Time.After (t u : Time) : Bool := decide (u < t)

/-- Function `errors.Is`: whether `target` is `err` or one of the errors `err`
wraps, down the chain of `Unwrap`. -/
def errorsIs : GoError → GoError → Bool
  | .errorString msg, target => decide (GoError.errorString msg = target)
  | .wrapError msg err, target =>
      decide (GoError.wrapError msg err = target) || errorsIs err target

/-- Constant `math.MinInt64`, the least value of the 64-bit `int`. -/
def MinInt64 : Int := -9223372036854775808

/-- Constant `math.MaxInt64`, the greatest value of the 64-bit `int`. -/
def MaxInt64 : Int := 9223372036854775807

/-- The Go expression `n - 1` on an `int`: integer arithmetic wraps around, so
one less than `math.MinInt64` is `math.MaxInt64`; taking 1 off any other `int`
stays in range. -/
def predInt (n : Int) : Int := if n = MinInt64 then MaxInt64 else n - 1

/-- The verb `%d` of `fmt`: an integer in base 10. -/
def formatInt (n : Int) : String := toString n

/-- Function `strings.HasPrefix`. -/
def HasPrefix (s pre : String) : Bool := pre.toList.isPrefixOf s.toList

/-- Function `strings.Join`. -/
def Join (elems : List String) (sep : String) : String := sep.intercalate elems

/-- Error `strconv.ErrSyntax`. -/
def ErrSyntax : GoError := .errorString "invalid syntax"

/-- Error `strconv.ErrRange`. -/
def ErrRange : GoError := .errorString "value out of range"

/-- The `*strconv.NumError` of a failed `Atoi`: it names the function and the
input and wraps the cause. -/
def atoiError (s : String) (cause : GoError) : GoError :=
  .wrapError ("strconv.Atoi: parsing " ++ s.quote ++ ": " ++ cause.Error) cause

/-- The value of a run of decimal digits, most significant first; `none` when
the run is empty or holds a character that is not a digit. -/
def digitsValue (cs : List Char) : Option Nat :=
  if cs.isEmpty then none
  else cs.foldl (fun acc ch =>
    match acc with
    | none => none
    | some n => if ch.isDigit then some (n * 10 + (ch.toNat - 48)) else none) (some 0)

/-- The integer a string denotes in base 10: an optional sign and then one or
more digits. -/
def parseDecimal (s : String) : Option Int :=
  match s.toList with
  | '-' :: cs => (digitsValue cs).map fun n => -(n : Int)
  | '+' :: cs => (digitsValue cs).map fun n => (n : Int)
  | cs => (digitsValue cs).map fun n => (n : Int)

/-- Function `strconv.Atoi` for the 64-bit `int`: the integer and no error for
a base-10 integer in range; zero and a syntax error for anything that is not
a base-10 integer; the nearest bound and a range error beyond the range. -/
def Atoi (s : String) : Int × Option GoError :=
  match parseDecimal s with
  | none => (0, some (atoiError s ErrSyntax))
  | some n =>
    if n < -9223372036854775808 then (-9223372036854775808, some (atoiError s ErrRange))
    else if 9223372036854775807 < n then (9223372036854775807, some (atoiError s ErrRange))
    else (n, none)

end Go

namespace BookDB

open Go

/-! ## The structs of `db.go` -/

/-- Struct `Book`: a row of the `books` table. -/
structure Book where
  ID : Int
  Title : String
  ISBN : String
  AuthorID : Int
  CategoryID : Int
  Stock : Int
  PublishedDate : Time
  Description : String
  CreatedAt : Time
  UpdatedAt : Time
deriving DecidableEq, Repr

/-- Struct `NewBook`. -/
structure NewBook where
  Title : String
  ISBN : String
  AuthorID : Int
  CategoryID : Int
  Stock : Int
  PublishedDate : Time
  Description : String
deriving DecidableEq, Repr

/-- Struct `BorrowingRecord`, the argument of `ReturnBook`. -/
structure BorrowingRecord where
  ID : Int
  BookID : Int
  UserID : Int
  BorrowedAt : Time
  ReturnedAt : Time
  DueDate : Time
deriving DecidableEq, Repr

/-- Struct `NewBorrowingRecord`, the argument of `BorrowBook`. -/
structure NewBorrowingRecord where
  BookID : Int
  UserID : Int
  BorrowedAt : Time
  ReturnedAt : Time
  Status : String
deriving DecidableEq, Repr

/-! ## The tables -/

/-- A row of `borrowing_records(id, book_id, user_id, borrowed_at, due_date,
returned_at NULL)`; `returned_at = none` is SQL `NULL`, an open loan. -/
structure BorrowingRow where
  id : Int
  book_id : Int
  user_id : Int
  borrowed_at : Time
  due_date : Time
  returned_at : Option Time
deriving DecidableEq, Repr

/-- The two tables the borrowing engine reads and writes. -/
structure Store where
  books : List Book
  borrowing_records : List BorrowingRow
deriving DecidableEq, Repr

/-- What the database server and the clock supply to one store operation:
`fail n` is the error (if any) with which the `n`-th pool or transaction call
of the operation fails, `now` is the value of `time.Now()`, `nextID` the key
given to a row the operation inserts, `stamp` the default of the audit
columns of an inserted book. -/
structure Backend where
  fail : Nat → Option GoError
  now : Time
  nextID : Int
  stamp : Time

/-- The statements of `postgres_db.go` that the borrowing engine and the book
CRUD issue, with their arguments. -/
inductive Sql where
  /-- Statement `INSERT INTO books (title, isbn, author_id, category_id, stock,
  published_date, description) VALUES ($1, ..., $7)`. -/
  | insertBook (newBook : NewBook)
  /-- Statement `UPDATE books SET title = $1, isbn = $2, author_id = $3,
  category_id = $4, stock = $5, published_date = $6, description = $7
  WHERE id = $8`. -/
  | updateBook (book : Book)
  /-- Statement `DELETE FROM books WHERE id = $1`. -/
  | deleteBook (id : Int)
  /-- Statement `SELECT id, title, isbn, author_id, category_id, stock,
  published_date, description, created_at, updated_at FROM books
  WHERE id = $1`. -/
  | selectBookByID (bookID : Int)
  /-- Statement `SELECT id, title, isbn, author_id, category_id, stock,
  published_date, description, created_at, updated_at FROM books`. -/
  | selectAllBooks
  /-- Statement `SELECT stock FROM books WHERE id = $1 FOR UPDATE`. -/
  | selectStockForUpdate (bookID : Int)
  /-- Statement `UPDATE books SET stock = $1 WHERE id = $2`. -/
  | updateStock (stock : Int) (bookID : Int)
  /-- Statement `INSERT INTO borrowing_records (user_id, book_id, borrowed_at,
  due_date) VALUES ($1, $2, $3, $4)`. -/
  | insertBorrowingRecord (userID bookID : Int) (borrowedAt dueDate : Time)
  /-- Statement `SELECT EXISTS (SELECT 1 FROM borrowing_records WHERE user_id = $1
  AND book_id = $2 AND returned_at IS NULL)`. -/
  | existsOpenRecord (userID bookID : Int)
  /-- Statement `UPDATE borrowing_records SET returned_at = $1 WHERE user_id = $2
  AND book_id = $3 AND returned_at IS NULL`. -/
  | closeOpenRecords (returnedAt : Time) (userID bookID : Int)
  /-- Statement `UPDATE books SET stock = stock + 1 WHERE id = $1`. -/
  | incrementStock (bookID : Int)
deriving DecidableEq, Repr

/-- The condition `user_id = $1 AND book_id = $2 AND returned_at IS NULL`. -/
def BorrowingRow.isOpenFor (r : BorrowingRow) (userID bookID : Int) : Bool :=
  decide (r.user_id = userID) && decide (r.book_id = bookID) && r.returned_at.isNone

/-- The tables after a statement has run; a `SELECT` changes nothing. -/
def Sql.run (env : Backend) (s : Store) : Sql → Store
  | .insertBook nb =>
      { s with books := s.books ++
          [{ ID := env.nextID, Title := nb.Title, ISBN := nb.ISBN,
             AuthorID := nb.AuthorID, CategoryID := nb.CategoryID,
             Stock := nb.Stock, PublishedDate := nb.PublishedDate,
             Description := nb.Description,
             CreatedAt := env.stamp, UpdatedAt := env.stamp }] }
  | .updateBook book =>
      { s with books := s.books.map fun b =>
          if b.ID = book.ID then
            { b with Title := book.Title, ISBN := book.ISBN,
                     AuthorID := book.AuthorID, CategoryID := book.CategoryID,
                     Stock := book.Stock, PublishedDate := book.PublishedDate,
                     Description := book.Description }
          else b }
  | .deleteBook id =>
      { s with books := s.books.filter fun b => decide (b.ID ≠ id) }
  | .selectBookByID _ => s
  | .selectAllBooks => s
  | .selectStockForUpdate _ => s
  | .updateStock stock bookID =>
      { s with books := s.books.map fun b =>
          if b.ID = bookID then { b with Stock := stock } else b }
  | .insertBorrowingRecord userID bookID borrowedAt dueDate =>
      { s with borrowing_records := s.borrowing_records ++
          [{ id := env.nextID, book_id := bookID, user_id := userID,
             borrowed_at := borrowedAt, due_date := dueDate,
             returned_at := none }] }
  | .existsOpenRecord _ _ => s
  | .closeOpenRecords returnedAt userID bookID =>
      { s with borrowing_records := s.borrowing_records.map fun r =>
          if r.isOpenFor userID bookID then
            { r with returned_at := some returnedAt }
          else r }
  | .incrementStock bookID =>
      { s with books := s.books.map fun b =>
          if b.ID = bookID then { b with Stock := b.Stock + 1 } else b }

/-- Whether a statement is a write (`INSERT`, `UPDATE` or `DELETE`). -/
def Sql.isWrite : Sql → Bool
  | .selectBookByID _ => false
  | .selectAllBooks => false
  | .selectStockForUpdate _ => false
  | .existsOpenRecord _ _ => false
  | _ => true

/-- The answer to `SELECT stock FROM books WHERE id = $1`: the stock of the
first row with that key, if there is one. -/
def Store.selectStock (s : Store) (bookID : Int) : Option Int :=
  (s.books.find? fun b => decide (b.ID = bookID)).map Book.Stock

/-- The answer to the `SELECT EXISTS (...)` of `ReturnBook`. -/
def Store.existsOpen (s : Store) (userID bookID : Int) : Bool :=
  s.borrowing_records.any fun r => r.isOpenFor userID bookID

/-! ## The pgx pool and its transactions -/

/-- The isolation levels of `pgx.TxIsoLevel`. -/
inductive TxIsoLevel where
  | Serializable
  | RepeatableRead
  | ReadCommitted
  | ReadUncommitted
deriving DecidableEq, Repr

/-- Struct `pgx.TxOptions` (the one field the store sets). -/
structure TxOptions where
  IsoLevel : TxIsoLevel
deriving DecidableEq, Repr

/-- A call made on the pool or on a transaction. -/
inductive Call where
  | poolBeginTx (txOptions : TxOptions)
  | poolExec (sql : Sql)
  | poolQueryRow (sql : Sql)
  | poolQuery (sql : Sql)
  | collectRows
  | txQueryRow (sql : Sql)
  | txExec (sql : Sql)
  | txCommit
  | txRollback
deriving DecidableEq, Repr

/-- Whether a call executes a write. -/
def Call.isWrite : Call → Bool
  | .poolExec sql => sql.isWrite
  | .txExec sql => sql.isWrite
  | _ => false

/-- The pool as the store sees it: the committed tables, the working copy of
the open transaction, and the calls made so far (oldest first). -/
structure Conn where
  committed : Store
  tx : Option Store
  trace : List Call
deriving DecidableEq, Repr

/-- A pool over the given tables, no transaction open, nothing called yet. -/
def Conn.ofStore (s : Store) : Conn := { committed := s, tx := none, trace := [] }

/-- Error `pgx.ErrNoRows`. -/
def ErrNoRows : GoError := .errorString "no rows in result set"

/-- Error `pgx.ErrTxClosed`. -/
def ErrTxClosed : GoError := .errorString "tx is closed"

/-- Call `pool.BeginTx`: on success the transaction starts from the committed
tables. -/
def Conn.BeginTx (env : Backend) (c : Conn) (txOptions : TxOptions) : Option GoError × Conn :=
  let c1 := { c with trace := c.trace ++ [Call.poolBeginTx txOptions] }
  match env.fail c.trace.length with
  | some err => (some err, c1)
  | none => (none, { c1 with tx := some c.committed })

/-- Call `pool.Exec`: a statement outside any transaction, committed at once. -/
def Conn.Exec (env : Backend) (c : Conn) (sql : Sql) : Option GoError × Conn :=
  let c1 := { c with trace := c.trace ++ [Call.poolExec sql] }
  match env.fail c.trace.length with
  | some err => (some err, c1)
  | none => (none, { c1 with committed := sql.run env c.committed })

/-- Call `tx.Exec`: the statement runs on the working copy. -/
def Conn.TxExec (env : Backend) (c : Conn) (sql : Sql) : Option GoError × Conn :=
  let c1 := { c with trace := c.trace ++ [Call.txExec sql] }
  match env.fail c.trace.length with
  | some err => (some err, c1)
  | none =>
    match c.tx with
    | none => (some ErrTxClosed, c1)
    | some w => (none, { c1 with tx := some (sql.run env w) })

/-- Call `tx.QueryRow(SELECT stock ... FOR UPDATE).Scan(&stock)`. -/
def Conn.TxQueryRowStock (env : Backend) (c : Conn) (bookID : Int) : Except GoError Int × Conn :=
  let c1 := { c with trace := c.trace ++ [Call.txQueryRow (.selectStockForUpdate bookID)] }
  match env.fail c.trace.length with
  | some err => (.error err, c1)
  | none =>
    match c.tx with
    | none => (.error ErrTxClosed, c1)
    | some w =>
      match w.selectStock bookID with
      | none => (.error ErrNoRows, c1)
      | some stock => (.ok stock, c1)

/-- Call `tx.QueryRow(SELECT EXISTS (...)).Scan(&exists)`. -/
def Conn.TxQueryRowExists (env : Backend) (c : Conn) (userID bookID : Int) :
    Except GoError Bool × Conn :=
  let c1 := { c with trace := c.trace ++ [Call.txQueryRow (.existsOpenRecord userID bookID)] }
  match env.fail c.trace.length with
  | some err => (.error err, c1)
  | none =>
    match c.tx with
    | none => (.error ErrTxClosed, c1)
    | some w => (.ok (w.existsOpen userID bookID), c1)

/-- Call `tx.Commit`: on success the working copy becomes the committed
tables and the transaction is closed. -/
def Conn.Commit (env : Backend) (c : Conn) : Option GoError × Conn :=
  let c1 := { c with trace := c.trace ++ [Call.txCommit] }
  match env.fail c.trace.length with
  | some err => (some err, c1)
  | none =>
    match c.tx with
    | none => (some ErrTxClosed, c1)
    | some w => (none, { c1 with committed := w, tx := none })

/-- Call `tx.Rollback`: the working copy is dropped; after a commit there is
none and the call changes nothing. Its result is ignored by the store. -/
def Conn.Rollback (c : Conn) : Conn :=
  { c with tx := none, trace := c.trace ++ [Call.txRollback] }

/-! ## The store of `postgres_db.go` -/

/-- Method `postgresDB.CreateBook`. -/
def postgresDB.CreateBook (env : Backend) (db : Conn) (newBook : NewBook) : Option GoError × Conn :=
  match db.Exec env (.insertBook newBook) with
  | (some err, db1) => (some (ErrorfW "failed to insert book" err), db1)
  | (none, db1) => (none, db1)

/-- Method `postgresDB.UpdateBook`. -/
def postgresDB.UpdateBook (env : Backend) (db : Conn) (book : Book) : Option GoError × Conn :=
  match db.Exec env (.updateBook book) with
  | (some err, db1) => (some (ErrorfW "failed to update book" err), db1)
  | (none, db1) => (none, db1)

/-- Method `postgresDB.DeleteBook`. -/
def postgresDB.DeleteBook (env : Backend) (db : Conn) (id : Int) : Option GoError × Conn :=
  match db.Exec env (.deleteBook id) with
  | (some err, db1) => (some (ErrorfW "failed to delete book" err), db1)
  | (none, db1) => (none, db1)

/-- The statements of `postgresDB.BorrowBook` that follow
`defer tx.Rollback(ctx)`, on the transaction `tx`. -/
def postgresDB.BorrowBook.steps (env : Backend) (tx : Conn) (book : NewBorrowingRecord) :
    Option GoError × Conn :=
  match tx.TxQueryRowStock env book.BookID with
  | (.error err, tx1) =>
    if err = ErrNoRows then (some (Errorf "book not found"), tx1)
    else (some (ErrorfW "failed to query book" err), tx1)
  | (.ok stock, tx1) =>
    if stock = 0 then (some (Errorf "book is not available"), tx1)
    else
      match tx1.TxExec env (.updateStock (predInt stock) book.BookID) with
      | (some err, tx2) => (some (ErrorfW "failed to decrement stock" err), tx2)
      | (none, tx2) =>
        match tx2.TxExec env (.insertBorrowingRecord book.UserID book.BookID book.BorrowedAt
            (Time.Add book.BorrowedAt (3 * 24 * Hour))) with
        | (some err, tx3) => (some (ErrorfW "failed to insert borrowing record" err), tx3)
        | (none, tx3) =>
          match tx3.Commit env with
          | (some err, tx4) => (some (ErrorfW "failed to commit transaction" err), tx4)
          | (none, tx4) => (none, tx4)

/-- Method `postgresDB.BorrowBook`: begin a repeatable-read transaction, run
the steps, and roll back on the way out (the deferred call). -/
def postgresDB.BorrowBook (env : Backend) (db : Conn) (book : NewBorrowingRecord) :
    Option GoError × Conn :=
  match db.BeginTx env { IsoLevel := .RepeatableRead } with
  | (some err, db1) => (some (ErrorfW "failed to start transaction" err), db1)
  | (none, tx) =>
    let r := postgresDB.BorrowBook.steps env tx book
    (r.1, r.2.Rollback)

/-- The statements of `postgresDB.ReturnBook` that follow
`defer tx.Rollback(ctx)`, on the transaction `tx`. -/
def postgresDB.ReturnBook.steps (env : Backend) (tx : Conn) (book : BorrowingRecord) :
    Option GoError × Conn :=
  match tx.TxQueryRowExists env book.UserID book.BookID with
  | (.error err, tx1) => (some (ErrorfW "failed to check borrowing record" err), tx1)
  | (.ok found, tx1) =>
    if !found then (some (Errorf "borrowing record not found or already returned"), tx1)
    else
      match tx1.TxExec env (.closeOpenRecords env.now book.UserID book.BookID) with
      | (some err, tx2) => (some (ErrorfW "failed to update borrowing record" err), tx2)
      | (none, tx2) =>
        match tx2.TxExec env (.incrementStock book.BookID) with
        | (some err, tx3) => (some (ErrorfW "failed to increment book stock" err), tx3)
        | (none, tx3) =>
          match tx3.Commit env with
          | (some err, tx4) => (some (ErrorfW "failed to commit transaction" err), tx4)
          | (none, tx4) => (none, tx4)

/-- Method `postgresDB.ReturnBook`. -/
def postgresDB.ReturnBook (env : Backend) (db : Conn) (book : BorrowingRecord) :
    Option GoError × Conn :=
  match db.BeginTx env { IsoLevel := .RepeatableRead } with
  | (some err, db1) => (some (ErrorfW "failed to start transaction" err), db1)
  | (none, tx) =>
    let r := postgresDB.ReturnBook.steps env tx book
    (r.1, r.2.Rollback)

/-- A backend on which no call fails. -/
def Backend.healthy (env : Backend) : Prop := ∀ n, env.fail n = none

/-- The number of open borrowing records of a book. -/
def Store.openRecords (s : Store) (bookID : Int) : Nat :=
  s.borrowing_records.countP fun r => decide (r.book_id = bookID) && r.returned_at.isNone

/-- The number of open borrowing records of a user on a book. -/
def Store.openFor (s : Store) (userID bookID : Int) : Nat :=
  s.borrowing_records.countP fun r => r.isOpenFor userID bookID

/-- The number of closed borrowing records of a user on a book. -/
def Store.closedFor (s : Store) (userID bookID : Int) : Nat :=
  s.borrowing_records.countP fun r =>
    decide (r.user_id = userID) && decide (r.book_id = bookID) && r.returned_at.isSome

/-- The stock of a book plus the number of its open borrowing records; `none`
when the book has no row. -/
def Store.stockPlusOpen (s : Store) (bookID : Int) : Option Int :=
  (s.selectStock bookID).map fun stock => stock + (s.openRecords bookID : Int)

/-- How many records are open in `before` and closed at the same position
in `after`. -/
def closedBetween (before after : List BorrowingRow) : Nat :=
  (before.zip after).countP fun p => p.1.returned_at.isNone && p.2.returned_at.isSome

/-- Every book has a stock of at least zero. -/
def Store.stockNonneg (s : Store) : Prop := ∀ b ∈ s.books, 0 ≤ b.Stock

/-- No user has two open borrowing records on one book. -/
def Store.atMostOneOpen (s : Store) : Prop := ∀ userID bookID, s.openFor userID bookID ≤ 1

/-- The tables a successful `BorrowBook` commits. -/
def borrowed (env : Backend) (s : Store) (book : NewBorrowingRecord) (stock : Int) : Store :=
  { books := s.books.map fun b =>
      if b.ID = book.BookID then { b with Stock := predInt stock } else b
    borrowing_records := s.borrowing_records ++
      [{ id := env.nextID, book_id := book.BookID, user_id := book.UserID,
         borrowed_at := book.BorrowedAt,
         due_date := Time.Add book.BorrowedAt (3 * 24 * Hour), returned_at := none }] }

/-- The tables a successful `ReturnBook` commits. -/
def returned (env : Backend) (s : Store) (book : BorrowingRecord) : Store :=
  { books := s.books.map fun b =>
      if b.ID = book.BookID then { b with Stock := b.Stock + 1 } else b
    borrowing_records := s.borrowing_records.map fun r =>
      if r.isOpenFor book.UserID book.BookID then { r with returned_at := some env.now } else r }

/-! ## Sequences of borrow and return calls -/

/-- A call of the borrowing engine. -/
inductive Loan where
  | borrow (book : NewBorrowingRecord)
  | giveBack (book : BorrowingRecord)
deriving DecidableEq, Repr

/-- One call on a pool over the tables `s`: the error returned and the tables
committed when the call is over. -/
def Loan.call (env : Backend) (s : Store) : Loan → Option GoError × Store
  | .borrow book =>
      let r := postgresDB.BorrowBook env (Conn.ofStore s) book
      (r.1, r.2.committed)
  | .giveBack book =>
      let r := postgresDB.ReturnBook env (Conn.ofStore s) book
      (r.1, r.2.committed)

/-- The calls run one after another, each with its own backend; `none` as
soon as one of them returns an error. -/
def runLoans : Store → List (Backend × Loan) → Option Store
  | s, [] => some s
  | s, (env, op) :: rest =>
    match op.call env s with
    | (none, s1) => runLoans s1 rest
    | (some _, _) => none

/-- Along the run, every `ReturnBook` is called when its user has at most one
open record on its book. -/
def returnsFindOneOpen : Store → List (Backend × Loan) → Prop
  | _, [] => True
  | s, (env, op) :: rest =>
    (match op with
      | .giveBack book => s.openFor book.UserID book.BookID ≤ 1
      | .borrow _ => True) ∧
    returnsFindOneOpen (op.call env s).2 rest

/-- Along the run, every `BorrowBook` is called when its user has no open
record on its book. -/
def borrowsFindNoneOpen : Store → List (Backend × Loan) → Prop
  | _, [] => True
  | s, (env, op) :: rest =>
    (match op with
      | .borrow book => s.openFor book.UserID book.BookID = 0
      | .giveBack _ => True) ∧
    borrowsFindNoneOpen (op.call env s).2 rest

/-! ## Concrete tables and backends -/

/-- A backend on which every call succeeds. -/
def okBackend (now : Time) (nextID : Int) : Backend :=
  { fail := fun _ => none, now := now, nextID := nextID, stamp := now }

/-- A backend whose `n`-th call fails with `err`. -/
def failingBackend (n : Nat) (err : GoError) : Backend :=
  { fail := fun k => if k = n then some err else none, now := 0, nextID := 1, stamp := 0 }

/-- A book row with the given key and stock. -/
def sampleBook (id stock : Int) : Book :=
  { ID := id, Title := "Dune", ISBN := "9780441013593", AuthorID := 1, CategoryID := 1,
    Stock := stock, PublishedDate := 0, Description := "", CreatedAt := 0, UpdatedAt := 0 }

/-- An open borrowing record. -/
def openRow (id bookID userID : Int) (borrowedAt : Time) : BorrowingRow :=
  { id := id, book_id := bookID, user_id := userID, borrowed_at := borrowedAt,
    due_date := Time.Add borrowedAt (3 * 24 * Hour), returned_at := none }

/-- A borrow request. -/
def borrowOf (userID bookID : Int) (borrowedAt : Time) : NewBorrowingRecord :=
  { BookID := bookID, UserID := userID, BorrowedAt := borrowedAt, ReturnedAt := 0, Status := "" }

/-- A return request. -/
def returnOf (userID bookID : Int) : BorrowingRecord :=
  { ID := 0, BookID := bookID, UserID := userID, BorrowedAt := 0, ReturnedAt := 0, DueDate := 0 }

/-- Two books: five copies of book 1, none of book 2; no borrowing record. -/
def shelf : Store :=
  { books := [sampleBook 1 5, sampleBook 2 0], borrowing_records := [] }

/-- Three copies of book 1, and user 7 holding two open records on it, the
older borrowed at instant 100, the newer at instant 200. -/
def twoOpen : Store :=
  { books := [sampleBook 1 3],
    borrowing_records := [openRow 10 1 7 100, openRow 11 1 7 200] }

/-- One row of book 1 whose stock is `math.MinInt64`, and no borrowing
record. -/
def bottomed : Store :=
  { books := [sampleBook 1 MinInt64], borrowing_records := [] }

/-- Along the run, no `BorrowBook` is called when the stock of its book is
`math.MinInt64`. -/
def borrowsFindStockAboveMin : Store → List (Backend × Loan) → Prop
  | _, [] => True
  | s, (env, op) :: rest =>
    (match op with
      | .borrow book => s.selectStock book.BookID ≠ some MinInt64
      | .giveBack _ => True) ∧
    borrowsFindStockAboveMin (op.call env s).2 rest

/-- Two copies of book 1 and no borrowing record. -/
def twoCopies : Store :=
  { books := [sampleBook 1 2], borrowing_records := [] }

/-- User 7 borrows book 1 twice, then returns it once. -/
def borrowTwiceReturnOnce : List (Backend × Loan) :=
  [(okBackend 100 10, .borrow (borrowOf 7 1 100)),
   (okBackend 200 11, .borrow (borrowOf 7 1 200)),
   (okBackend 300 12, .giveBack (returnOf 7 1))]

/-- User 7 borrows book 1 once. -/
def borrowOnce : List (Backend × Loan) :=
  [(okBackend 100 10, .borrow (borrowOf 7 1 100))]

/-- User 7 borrows book 1 twice. -/
def borrowTwice : List (Backend × Loan) :=
  [(okBackend 100 10, .borrow (borrowOf 7 1 100)),
   (okBackend 200 11, .borrow (borrowOf 7 1 200))]

/-- User 7 borrows book 1, returns it, and borrows it again. -/
def borrowReturnBorrow : List (Backend × Loan) :=
  [(okBackend 100 10, .borrow (borrowOf 7 1 100)),
   (okBackend 200 11, .giveBack (returnOf 7 1)),
   (okBackend 300 12, .borrow (borrowOf 7 1 300))]

/-! ## Reading one book -/

/-- The zero value `Book{}`. -/
def Book.zero : Book :=
  { ID := 0, Title := "", ISBN := "", AuthorID := 0, CategoryID := 0, Stock := 0,
    PublishedDate := 0, Description := "", CreatedAt := 0, UpdatedAt := 0 }

/-- The answer to `SELECT id, ..., updated_at FROM books WHERE id = $1`: the
first row with that key, if there is one. -/
def Store.selectBook (s : Store) (bookID : Int) : Option Book :=
  s.books.find? fun b => decide (b.ID = bookID)

/-- Call `pool.QueryRow(SELECT id, ... WHERE id = $1).Scan(&book.ID, ...)`,
outside any transaction: the row read from the committed tables, the error
`pgx.ErrNoRows` when there is none. -/
def Conn.QueryRowBook (env : Backend) (c : Conn) (bookID : Int) : Except GoError Book × Conn :=
  let c1 := { c with trace := c.trace ++ [Call.poolQueryRow (.selectBookByID bookID)] }
  match env.fail c.trace.length with
  | some err => (.error err, c1)
  | none =>
    match c.committed.selectBook bookID with
    | none => (.error ErrNoRows, c1)
    | some book => (.ok book, c1)

/-- Method `postgresDB.GetBookByID`. -/
def postgresDB.GetBookByID (env : Backend) (db : Conn) (bookID : Int) :
    (Book × Option GoError) × Conn :=
  match db.QueryRowBook env bookID with
  | (.error err, db1) =>
    if errorsIs err ErrNoRows then
      ((Book.zero, some (Errorf ("book with ID " ++ formatInt bookID ++ " not found"))), db1)
    else ((Book.zero, some (ErrorfW "unable to query book" err)), db1)
  | (.ok book, db1) => ((book, none), db1)

/-- Whether a call is made on the transaction rather than on the pool. -/
def Call.onTx : Call → Bool
  | .txQueryRow _ => true
  | .txExec _ => true
  | .txCommit => true
  | .txRollback => true
  | _ => false

/-! ## The life of a borrowing record -/

/-- What may happen to a row of `borrowing_records` from one state to a later
one: nothing but its return instant changes, and not even that once the row
is closed. -/
def BorrowingRow.stepsTo (r r2 : BorrowingRow) : Prop :=
  r2.id = r.id ∧ r2.book_id = r.book_id ∧ r2.user_id = r.user_id ∧
  r2.borrowed_at = r.borrowed_at ∧ r2.due_date = r.due_date ∧
  (r.returned_at.isSome = true → r2.returned_at = r.returned_at)

/-- Every row of `before` is still there in `after`, in the same place and
changed at most as `stepsTo` allows; `after` may have new rows at its end. -/
def recordsKept (before after : List BorrowingRow) : Prop :=
  ∃ kept added, after = kept ++ added ∧ List.Forall₂ BorrowingRow.stepsTo before kept

/-! ## The interface `Database` -/

/-- Interface `Database` of `db.go`, over a store whose state has type `σ`:
each method takes the state and gives back its results and the new state.
(The two recommendation methods and `CloseConnections` are left out.) -/
structure Database (σ : Type) where
  LoadAllBooks : σ → (List Book × Option GoError) × σ
  GetBookByID : σ → Int → (Book × Option GoError) × σ
  CreateBook : σ → NewBook → Option GoError × σ
  UpdateBook : σ → Book → Option GoError × σ
  DeleteBook : σ → Int → Option GoError × σ
  BorrowBook : σ → NewBorrowingRecord → Option GoError × σ
  ReturnBook : σ → BorrowingRecord → Option GoError × σ

/-- A call of a method of `Database`, with its arguments. -/
inductive DatabaseCall where
  | LoadAllBooks
  | GetBookByID (bookID : Int)
  | CreateBook (newBook : NewBook)
  | UpdateBook (book : Book)
  | DeleteBook (id : Int)
  | BorrowBook (book : NewBorrowingRecord)
  | ReturnBook (book : BorrowingRecord)
deriving DecidableEq, Repr

/-- A store that only keeps the list of the calls made on it (oldest first)
and answers each with the given values. -/
def recordingDB (books : List Book) (book : Book) (err : Option GoError) :
    Database (List DatabaseCall) where
  LoadAllBooks calls := ((books, err), calls ++ [.LoadAllBooks])
  GetBookByID calls bookID := ((book, err), calls ++ [.GetBookByID bookID])
  CreateBook calls newBook := (err, calls ++ [.CreateBook newBook])
  UpdateBook calls b := (err, calls ++ [.UpdateBook b])
  DeleteBook calls id := (err, calls ++ [.DeleteBook id])
  BorrowBook calls b := (err, calls ++ [.BorrowBook b])
  ReturnBook calls b := (err, calls ++ [.ReturnBook b])

/-! ## Listing the books, and the store as a `Database` -/

/-- Call `pool.Query(SELECT id, ... FROM books)`: the rows of the committed
table. -/
def Conn.QueryBooks (env : Backend) (c : Conn) : Except GoError (List Book) × Conn :=
  let c1 := { c with trace := c.trace ++ [Call.poolQuery .selectAllBooks] }
  match env.fail c.trace.length with
  | some err => (.error err, c1)
  | none => (.ok c.committed.books, c1)

/-- Call `pgx.CollectRows(rows, pgx.RowToStructByName[Book])`: reading the
rows may fail. -/
def Conn.CollectRows (env : Backend) (c : Conn) (rows : List Book) :
    Except GoError (List Book) × Conn :=
  let c1 := { c with trace := c.trace ++ [Call.collectRows] }
  match env.fail c.trace.length with
  | some err => (.error err, c1)
  | none => (.ok rows, c1)

/-- Method `postgresDB.LoadAllBooks`. -/
def postgresDB.LoadAllBooks (env : Backend) (db : Conn) : (List Book × Option GoError) × Conn :=
  match db.QueryBooks env with
  | (.error err, db1) => (([], some (ErrorfW "failed to query books table" err)), db1)
  | (.ok rows, db1) =>
    match db1.CollectRows env rows with
    | (.error err, db2) => (([], some (ErrorfW "failed to collect rows" err)), db2)
    | (.ok books, db2) => ((books, none), db2)

/-- The store `postgresDB` as a `Database`, on the given backend. -/
def postgresDB.database (env : Backend) : Database Conn where
  LoadAllBooks := postgresDB.LoadAllBooks env
  GetBookByID := postgresDB.GetBookByID env
  CreateBook := postgresDB.CreateBook env
  UpdateBook := postgresDB.UpdateBook env
  DeleteBook := postgresDB.DeleteBook env
  BorrowBook := postgresDB.BorrowBook env
  ReturnBook := postgresDB.ReturnBook env

/-! ## The in-memory store of `memory_db.go` -/

/-- Struct `memoryDB`. -/
structure memoryDB where
  records : List Book
  idCounter : Int
deriving DecidableEq, Repr

/-- Function `newMemoryDB`. -/
def newMemoryDB : memoryDB := { records := [], idCounter := 0 }

/-- The index expression `xs[i]` on a slice: `none` is the run-time panic
"index out of range". -/
def sliceIndex {α : Type} (xs : List α) (i : Int) : Option α :=
  if i < 0 then none else xs[i.toNat]?

/-- Method `memoryDB.GetBookByID`; `none` when the index expression panics. -/
def memoryDB.GetBookByID (db : memoryDB) (_bookID : Int) : Option (Book × Option GoError) :=
  (sliceIndex db.records db.idCounter).map fun b => (b, none)

/-- Method `memoryDB.LoadAllBooks`. -/
def memoryDB.LoadAllBooks (db : memoryDB) : List Book × Option GoError := (db.records, none)

/-- Method `memoryDB.CreateBook`. -/
def memoryDB.CreateBook (db : memoryDB) (newBook : NewBook) : Option GoError × memoryDB :=
  (none, { records := db.records ++ [{ Book.zero with ID := db.idCounter, Title := newBook.Title }],
           idCounter := db.idCounter + 1 })

/-- Method `memoryDB.UpdateBook`. -/
def memoryDB.UpdateBook (db : memoryDB) (_book : Book) : Option GoError × memoryDB := (none, db)

/-- Method `memoryDB.DeleteBook`. -/
def memoryDB.DeleteBook (db : memoryDB) (_id : Int) : Option GoError × memoryDB := (none, db)

/-- Method `memoryDB.BorrowBook`. -/
def memoryDB.BorrowBook (db : memoryDB) (_book : NewBorrowingRecord) : Option GoError × memoryDB :=
  (none, db)

/-- Method `memoryDB.ReturnBook`. -/
def memoryDB.ReturnBook (db : memoryDB) (_books : BorrowingRecord) : Option GoError × memoryDB :=
  (none, db)

/-- One call on the in-memory store: the store after it, `none` when the call
panics. -/
def memoryDB.call (db : memoryDB) : DatabaseCall → Option memoryDB
  | .LoadAllBooks => some db
  | .GetBookByID bookID => (db.GetBookByID bookID).map fun _ => db
  | .CreateBook newBook => some (db.CreateBook newBook).2
  | .UpdateBook book => some (db.UpdateBook book).2
  | .DeleteBook id => some (db.DeleteBook id).2
  | .BorrowBook book => some (db.BorrowBook book).2
  | .ReturnBook book => some (db.ReturnBook book).2

/-- The calls made one after another; `none` as soon as one panics. -/
def memoryDB.run : memoryDB → List DatabaseCall → Option memoryDB
  | db, [] => some db
  | db, c :: rest =>
    match db.call c with
    | none => none
    | some db1 => memoryDB.run db1 rest

/-! ## Choosing the store: `NewDatabase` -/

/-- The store `NewDatabase` returns: the in-memory stub, or the PostgreSQL
store over a pool on the given URL. -/
inductive OpenedStore where
  | memory (db : memoryDB)
  | postgres (databaseURL : String)
deriving DecidableEq, Repr

/-- Function `newPostgresDB`; `poolNew` is `pgxpool.New`, giving the error
with which the pool cannot be created, if any. -/
def newPostgresDB (poolNew : String → Option GoError) (databaseURL : String) :
    Option OpenedStore × Option GoError :=
  match poolNew databaseURL with
  | some err => (none, some (Errorf ("unable to create connection pool: " ++ err.Error)))
  | none => (some (.postgres databaseURL), none)

/-- Function `NewDatabase`. -/
def NewDatabase (poolNew : String → Option GoError) (databaseURL : String) :
    Option OpenedStore × Option GoError :=
  if databaseURL = "" then (some (.memory newMemoryDB), none)
  else if HasPrefix databaseURL "postgres://" then
    match newPostgresDB poolNew databaseURL with
    | (_, some err) =>
      (none, some (ErrorfW "failed to initialize PostgreSQL database connection" err))
    | (db, none) => (db, none)
  else (none, some (Errorf ("unsupported database URL scheme: " ++ databaseURL)))

/-- One row of book 1 whose stock is -2, and no borrowing record. -/
def overdrawn : Store :=
  { books := [sampleBook 1 (-2)], borrowing_records := [] }

/-- A borrow of book 1 by user 7 dated at instant 1000. -/
def lateBorrow : NewBorrowingRecord := borrowOf 7 1 1000

end BookDB

/-! ## The author store of `author-service/app/datasources/database` -/

namespace AuthorDB

open Go

/-- Struct `Author`. -/
structure Author where
  ID : Int
  FirstName : String
  LastName : String
  BirthDate : Option Time
  Nationality : String
  CreatedAt : Time
  UpdatedAt : Time
deriving DecidableEq, Repr

/-- The zero value `Author{}`. -/
def Author.zero : Author :=
  { ID := 0, FirstName := "", LastName := "", BirthDate := none, Nationality := "",
    CreatedAt := 0, UpdatedAt := 0 }

/-- A value passed as a query argument (`interface{}`): a string or an `int`. -/
inductive Arg where
  | text (s : String)
  | int (n : Int)
deriving DecidableEq, Repr

/-- A call of `pool.Query`: the statement and its arguments. -/
structure QueryCall where
  sql : String
  args : List Arg
deriving DecidableEq, Repr

/-- What the database server supplies to `ListAuthor`: the error with which
`pool.Query` fails (if any), the rows it yields, each with the outcome of its
`rows.Scan`, the value of `rows.Err()` once the rows are read, and the
function `strings.ToLower`. -/
structure Backend where
  queryErr : Option GoError
  rows : List (Except GoError Author)
  rowsErr : Option GoError
  ToLower : String → String

/-- The statement and the arguments `ListAuthor` builds before it calls
`pool.Query`. -/
def postgresDB.ListAuthor.statement (ToLower : String → String) (filter : Author)
    (limit offset : Int) : String × List Arg :=
  let args : List Arg := []
  let whereClauses : List String := []
  let (args, whereClauses) :=
    if filter.FirstName ≠ "" then
      let args := args ++ [Arg.text ("%" ++ ToLower filter.FirstName ++ "%")]
      (args, whereClauses ++ ["LOWER(first_name) LIKE $" ++ formatInt args.length])
    else (args, whereClauses)
  let (args, whereClauses) :=
    if filter.LastName ≠ "" then
      let args := args ++ [Arg.text ("%" ++ ToLower filter.LastName ++ "%")]
      (args, whereClauses ++ ["LOWER(last_name) LIKE $" ++ formatInt args.length])
    else (args, whereClauses)
  let query :=
    "\n        SELECT author_id, first_name, last_name, birth_date, nationality, created_at, updated_at\n        FROM authors\n    "
  let query :=
    if whereClauses.length > 0 then query ++ (" WHERE " ++ Join whereClauses " OR ") else query
  let args := args ++ [Arg.int limit, Arg.int offset]
  let query := query ++ (" ORDER BY first_name LIMIT $" ++ formatInt (args.length - 1) ++
    " OFFSET $" ++ formatInt args.length)
  (query, args)

/-- The loop `for rows.Next()` of `ListAuthor`: the authors scanned so far
grow by one per row, and the first scan that fails ends the loop. -/
def postgresDB.ListAuthor.scan : List (Except GoError Author) → List Author →
    Except GoError (List Author)
  | [], authors => .ok authors
  | .error err :: _, _ => .error (ErrorfW "error scanning author row" err)
  | .ok a :: rest, authors => postgresDB.ListAuthor.scan rest (authors ++ [a])

/-- Method `postgresDB.ListAuthor`, on a pool that has received the calls
`pool`. -/
def postgresDB.ListAuthor (env : Backend) (pool : List QueryCall) (filter : Author)
    (limit offset : Int) : (List Author × Option GoError) × List QueryCall :=
  let st := postgresDB.ListAuthor.statement env.ToLower filter limit offset
  let pool1 := pool ++ [{ sql := st.1, args := st.2 }]
  match env.queryErr with
  | some err => (([], some (ErrorfW "unable to list authors" err)), pool1)
  | none =>
    match postgresDB.ListAuthor.scan env.rows [] with
    | .error err => (([], some err), pool1)
    | .ok authors =>
      match env.rowsErr with
      | some err => (([], some (ErrorfW "error reading author rows" err)), pool1)
      | none => ((authors, none), pool1)

/-- The store the author service's `NewDatabase` returns. -/
inductive OpenedStore where
  | memory
  | postgres (databaseURL : String)
deriving DecidableEq, Repr

/-- Function `newPostgresDB` of the author service. -/
def newPostgresDB (poolNew : String → Option GoError) (databaseURL : String) :
    Option OpenedStore × Option GoError :=
  match poolNew databaseURL with
  | some err => (none, some (Errorf ("unable to create connection pool: " ++ err.Error)))
  | none => (some (.postgres databaseURL), none)

/-- Function `NewDatabase` of the author service. -/
def NewDatabase (poolNew : String → Option GoError) (databaseURL : String) :
    Option OpenedStore × Option GoError :=
  if databaseURL = "" then (some .memory, none)
  else if HasPrefix databaseURL "postgres://" then
    match newPostgresDB poolNew databaseURL with
    | (_, some err) =>
      (none, some (ErrorfW "failed to initialize PostgreSQL database connection" err))
    | (db, none) => (db, none)
  else (none, some (Errorf ("unsupported database URL scheme: " ++ databaseURL)))

/-- Lower-casing of the ASCII letters of a string. -/
def asciiLower (s : String) : String := String.mk (s.toList.map Char.toLower)

/-- A backend with no rows and no failure, lower-casing ASCII letters. -/
def quietBackend : Backend :=
  { queryErr := none, rows := [], rowsErr := none, ToLower := asciiLower }

end AuthorDB

/-! ## The transport structs of `domain/books.go` -/

namespace Domain

open Go

/-- Struct `domain.Book`: a book on the wire. -/
structure Book where
  ID : Int
  Title : String
  ISBN : String
  AuthorID : Int
  CategoryID : Int
  PublishDate : Time
  Description : String
deriving DecidableEq, Repr

/-- The zero value `domain.Book{}`. -/
def Book.zero : Book :=
  { ID := 0, Title := "", ISBN := "", AuthorID := 0, CategoryID := 0, PublishDate := 0,
    Description := "" }

/-- Struct `domain.ErrorResponse`, the body of an error response. -/
structure ErrorResponse where
  Error : String
deriving DecidableEq, Repr

end Domain

/-! ## The service layer of `services/books.go` -/

namespace Services

open Go BookDB

/-- Struct `booksService`: the service over a store. -/
structure booksService (σ : Type) where
  db : Database σ

/-- Method `booksService.GetBook`. -/
def booksService.GetBook {σ : Type} (s : booksService σ) (st : σ) (id : Int) :
    (Domain.Book × Option GoError) × σ :=
  match s.db.GetBookByID st id with
  | ((_, some err), st1) => ((Domain.Book.zero, some err), st1)
  | ((record, none), st1) =>
    (({ ID := record.ID, Title := record.Title, AuthorID := record.AuthorID,
        CategoryID := record.CategoryID, PublishDate := record.PublishedDate,
        Description := record.Description, ISBN := record.ISBN }, none), st1)

/-- Method `booksService.GetBooks`: the loop appends one transport book per
record, in order. -/
def booksService.GetBooks {σ : Type} (s : booksService σ) (st : σ) :
    (List Domain.Book × Option GoError) × σ :=
  match s.db.LoadAllBooks st with
  | ((_, some err), st1) => (([], some (ErrorfW "failed to load books" err)), st1)
  | ((dbRecords, none), st1) =>
    ((dbRecords.foldl (fun books record => books ++
        [{ ID := record.ID, Title := record.Title, AuthorID := record.AuthorID,
           ISBN := record.ISBN, PublishDate := record.PublishedDate,
           Description := record.Description, CategoryID := record.CategoryID }]) [],
      none), st1)

/-- Method `booksService.SaveBook`. -/
def booksService.SaveBook {σ : Type} (s : booksService σ) (st : σ) (book : Domain.Book) :
    Option GoError × σ :=
  let dbBook : NewBook :=
    { Title := book.Title, AuthorID := book.AuthorID, ISBN := book.ISBN,
      Description := book.Description, CategoryID := book.CategoryID,
      PublishedDate := book.PublishDate, Stock := 12 }
  match s.db.CreateBook st dbBook with
  | (some err, st1) => (some (ErrorfW "failed to save book" err), st1)
  | (none, st1) => (none, st1)

/-- Method `booksService.DeleteBook`. -/
def booksService.DeleteBook {σ : Type} (s : booksService σ) (st : σ) (id : Int) :
    Option GoError × σ :=
  match s.db.DeleteBook st id with
  | (some err, st1) => (some (ErrorfW "failed to delete book" err), st1)
  | (none, st1) => (none, st1)

/-- Method `booksService.UpdateBook`: the fields the literal does not name
(`CategoryID`, `Stock`, `PublishedDate`, `CreatedAt`, `UpdatedAt`) are zero. -/
def booksService.UpdateBook {σ : Type} (s : booksService σ) (st : σ) (book : Domain.Book) :
    Option GoError × σ :=
  let dbBook : BookDB.Book :=
    { Title := book.Title, AuthorID := book.AuthorID, ISBN := book.ISBN,
      Description := book.Description, ID := book.ID,
      CategoryID := 0, Stock := 0, PublishedDate := 0, CreatedAt := 0, UpdatedAt := 0 }
  match s.db.UpdateBook st dbBook with
  | (some err, st1) => (some (ErrorfW "failed to update book" err), st1)
  | (none, st1) => (none, st1)

/-- Interface `BooksService`, over a service whose state has type `σ`. -/
structure BooksService (σ : Type) where
  GetBooks : σ → (List Domain.Book × Option GoError) × σ
  GetBook : σ → Int → (Domain.Book × Option GoError) × σ
  SaveBook : σ → Domain.Book → Option GoError × σ
  DeleteBook : σ → Int → Option GoError × σ
  UpdateBook : σ → Domain.Book → Option GoError × σ

/-- Function `NewBooksService`. -/
def NewBooksService {σ : Type} (db : Database σ) : BooksService σ where
  GetBooks := booksService.GetBooks { db := db }
  GetBook := booksService.GetBook { db := db }
  SaveBook := booksService.SaveBook { db := db }
  DeleteBook := booksService.DeleteBook { db := db }
  UpdateBook := booksService.UpdateBook { db := db }

/-- A call of a method of `BooksService`, with its arguments. -/
inductive ServiceCall where
  | GetBooks
  | GetBook (id : Int)
  | SaveBook (book : Domain.Book)
  | DeleteBook (id : Int)
  | UpdateBook (book : Domain.Book)
deriving DecidableEq, Repr

/-- A service that only keeps the list of the calls made on it (oldest first)
and answers each with the given error. -/
def recordingService (err : Option GoError) : BooksService (List ServiceCall) where
  GetBooks calls := (([], err), calls ++ [.GetBooks])
  GetBook calls id := ((Domain.Book.zero, err), calls ++ [.GetBook id])
  SaveBook calls book := (err, calls ++ [.SaveBook book])
  DeleteBook calls id := (err, calls ++ [.DeleteBook id])
  UpdateBook calls book := (err, calls ++ [.UpdateBook book])

/-- The transport book of the update test, with a category and a date. -/
def sampleUpdate : Domain.Book :=
  { ID := 1, Title := "Title", ISBN := "", AuthorID := 1, CategoryID := 3, PublishDate := 86400,
    Description := "empty desc" }

end Services

/-! ## The handlers of `handlers/books.go` -/

namespace Handlers

open Go Services

/-- Constant `fiber.StatusOK`. -/
def StatusOK : Nat := 200
/-- Constant `fiber.StatusCreated`. -/
def StatusCreated : Nat := 201
/-- Constant `fiber.StatusNoContent`. -/
def StatusNoContent : Nat := 204
/-- Constant `fiber.StatusBadRequest`. -/
def StatusBadRequest : Nat := 400
/-- Constant `fiber.StatusInternalServerError`. -/
def StatusInternalServerError : Nat := 500

/-- The body of a response. -/
inductive Body where
  | text (s : String)
  | errorResponse (e : Domain.ErrorResponse)
  | book (b : Domain.Book)
  | books (bs : List Domain.Book)
deriving DecidableEq, Repr

/-- What a handler sends: the status code and the body. -/
structure Response where
  Status : Nat
  Body : Body
deriving DecidableEq, Repr

/-- What a handler reads of the request through `fiber.Ctx`, and the clock:
the path parameters (`c.Params`), the result of `c.BodyParser(&book)`, and
the value of `time.Now()`. -/
structure Ctx where
  Params : String → String
  BodyParser : Except GoError Domain.Book
  Now : Time

/-- Function `utils.StatusMessage` of fiber, on the codes the handlers use. -/
def StatusMessage (code : Nat) : String :=
  if code = 200 then "OK"
  else if code = 201 then "Created"
  else if code = 204 then "No Content"
  else if code = 400 then "Bad Request"
  else if code = 500 then "Internal Server Error"
  else ""

/-- Method `c.SendStatus`: the status code, with its message as the body. -/
def SendStatus (code : Nat) : Response := { Status := code, Body := .text (StatusMessage code) }

/-- Function `sendError`. -/
def sendError (code : Nat) (message : String) : Response :=
  { Status := code, Body := .errorResponse { Error := message } }

/-- Handler `AddBook`. -/
def AddBook {σ : Type} (service : BooksService σ) (st : σ) (c : Ctx) : Response × σ :=
  match c.BodyParser with
  | .error _ => (sendError StatusBadRequest "invalid request", st)
  | .ok book =>
    if book.Title = "" then (sendError StatusBadRequest "title is required", st)
    else if Time.IsZero book.PublishDate then
      (sendError StatusBadRequest "published date is required", st)
    else if Time.After book.PublishDate c.Now then
      (sendError StatusBadRequest "published date cannot be in the future", st)
    else
      match service.SaveBook st book with
      | (some _, st1) => (sendError StatusInternalServerError "internal error", st1)
      | (none, st1) => (SendStatus StatusCreated, st1)

/-- Handler `GetBook`: the error of `strconv.Atoi` is never read, the variable
being assigned again by the call of the service. -/
def GetBook {σ : Type} (service : BooksService σ) (st : σ) (c : Ctx) : Response × σ :=
  let paramID := c.Params "id"
  let id := (Atoi paramID).1
  match service.GetBook st id with
  | ((_, some _), st1) => (sendError StatusInternalServerError "internal error", st1)
  | ((book, none), st1) => ({ Status := StatusOK, Body := .book book }, st1)

/-- A request with the given `id` path parameter. -/
def requestFor (id : String) : Ctx :=
  { Params := fun name => if name = "id" then id else "", BodyParser := .ok Domain.Book.zero,
    Now := 0 }

/-- A request whose body parsed to `book`, handled at instant `now`. -/
def requestOf (book : Domain.Book) (now : Time) : Ctx :=
  { Params := fun _ => "", BodyParser := .ok book, Now := now }

end Handlers

namespace BookDB

open Go

/-! ## Evaluation of the two transactions -/

/-- The calls `BorrowBook` makes and what it returns and commits, path by
path, on a pool with no transaction open. -/
theorem BorrowBook_eq (env : Backend) (s : Store) (book : NewBorrowingRecord) :
    postgresDB.BorrowBook env (Conn.ofStore s) book =
      let c0 := Call.poolBeginTx { IsoLevel := .RepeatableRead }
      let c1 := Call.txQueryRow (.selectStockForUpdate book.BookID)
      match env.fail 0 with
      | some e => (some (ErrorfW "failed to start transaction" e), ⟨s, none, [c0]⟩)
      | none =>
        match env.fail 1 with
        | some e =>
          (some (if e = ErrNoRows then Errorf "book not found" else ErrorfW "failed to query book" e),
            ⟨s, none, [c0, c1, .txRollback]⟩)
        | none =>
          match s.selectStock book.BookID with
          | none => (some (Errorf "book not found"), ⟨s, none, [c0, c1, .txRollback]⟩)
          | some stock =>
            if stock = 0 then (some (Errorf "book is not available"), ⟨s, none, [c0, c1, .txRollback]⟩)
            else
              let q2 := Sql.updateStock (predInt stock) book.BookID
              let q3 := Sql.insertBorrowingRecord book.UserID book.BookID book.BorrowedAt
                (Time.Add book.BorrowedAt (3 * 24 * Hour))
              match env.fail 2 with
              | some e => (some (ErrorfW "failed to decrement stock" e),
                  ⟨s, none, [c0, c1, .txExec q2, .txRollback]⟩)
              | none =>
                match env.fail 3 with
                | some e => (some (ErrorfW "failed to insert borrowing record" e),
                    ⟨s, none, [c0, c1, .txExec q2, .txExec q3, .txRollback]⟩)
                | none =>
                  match env.fail 4 with
                  | some e => (some (ErrorfW "failed to commit transaction" e),
                      ⟨s, none, [c0, c1, .txExec q2, .txExec q3, .txCommit, .txRollback]⟩)
                  | none => (none, ⟨Sql.run env (Sql.run env s q2) q3, none,
                      [c0, c1, .txExec q2, .txExec q3, .txCommit, .txRollback]⟩) := by
  cases h0 : env.fail 0 <;> cases h1 : env.fail 1 <;> cases hs : s.selectStock book.BookID <;>
    cases h2 : env.fail 2 <;> cases h3 : env.fail 3 <;> cases h4 : env.fail 4 <;>
    simp [postgresDB.BorrowBook, postgresDB.BorrowBook.steps, Conn.BeginTx, Conn.TxQueryRowStock,
      Conn.TxExec, Conn.Commit, Conn.Rollback, Conn.ofStore, h0, h1, hs, h2, h3, h4] <;>
    split_ifs <;> simp_all

/-- The calls `ReturnBook` makes and what it returns and commits, path by
path, on a pool with no transaction open. -/
theorem ReturnBook_eq (env : Backend) (s : Store) (book : BorrowingRecord) :
    postgresDB.ReturnBook env (Conn.ofStore s) book =
      let c0 := Call.poolBeginTx { IsoLevel := .RepeatableRead }
      let c1 := Call.txQueryRow (.existsOpenRecord book.UserID book.BookID)
      let q2 := Sql.closeOpenRecords env.now book.UserID book.BookID
      let q3 := Sql.incrementStock book.BookID
      match env.fail 0 with
      | some e => (some (ErrorfW "failed to start transaction" e), ⟨s, none, [c0]⟩)
      | none =>
        match env.fail 1 with
        | some e => (some (ErrorfW "failed to check borrowing record" e),
            ⟨s, none, [c0, c1, .txRollback]⟩)
        | none =>
          if s.existsOpen book.UserID book.BookID = false then
            (some (Errorf "borrowing record not found or already returned"),
              ⟨s, none, [c0, c1, .txRollback]⟩)
          else
            match env.fail 2 with
            | some e => (some (ErrorfW "failed to update borrowing record" e),
                ⟨s, none, [c0, c1, .txExec q2, .txRollback]⟩)
            | none =>
              match env.fail 3 with
              | some e => (some (ErrorfW "failed to increment book stock" e),
                  ⟨s, none, [c0, c1, .txExec q2, .txExec q3, .txRollback]⟩)
              | none =>
                match env.fail 4 with
                | some e => (some (ErrorfW "failed to commit transaction" e),
                    ⟨s, none, [c0, c1, .txExec q2, .txExec q3, .txCommit, .txRollback]⟩)
                | none => (none, ⟨Sql.run env (Sql.run env s q2) q3, none,
                    [c0, c1, .txExec q2, .txExec q3, .txCommit, .txRollback]⟩) := by
  cases h0 : env.fail 0 <;> cases h1 : env.fail 1 <;>
    cases hs : s.existsOpen book.UserID book.BookID <;>
    cases h2 : env.fail 2 <;> cases h3 : env.fail 3 <;> cases h4 : env.fail 4 <;>
    simp [postgresDB.ReturnBook, postgresDB.ReturnBook.steps, Conn.BeginTx, Conn.TxQueryRowExists,
      Conn.TxExec, Conn.Commit, Conn.Rollback, Conn.ofStore, h0, h1, hs, h2, h3, h4]

/-- A `BorrowBook` that returns no error found a row with a stock other than
zero and committed the decrement and the new record. -/
theorem BorrowBook_ok (env : Backend) (s : Store) (book : NewBorrowingRecord)
    (h : (postgresDB.BorrowBook env (Conn.ofStore s) book).1 = none) :
    ∃ stock, s.selectStock book.BookID = some stock ∧ stock ≠ 0 ∧
      (postgresDB.BorrowBook env (Conn.ofStore s) book).2.committed = borrowed env s book stock := by
  rw [BorrowBook_eq] at h ⊢
  cases h0 : env.fail 0 <;> cases h1 : env.fail 1 <;> cases hs : s.selectStock book.BookID <;>
    cases h2 : env.fail 2 <;> cases h3 : env.fail 3 <;> cases h4 : env.fail 4 <;>
    simp [h0, h1, hs, h2, h3, h4] at h ⊢ <;>
    split_ifs at h ⊢
  all_goals simp_all [Sql.run, borrowed]

/-- A `BorrowBook` that returns an error commits nothing. -/
theorem BorrowBook_err (env : Backend) (s : Store) (book : NewBorrowingRecord)
    (h : (postgresDB.BorrowBook env (Conn.ofStore s) book).1 ≠ none) :
    (postgresDB.BorrowBook env (Conn.ofStore s) book).2.committed = s := by
  rw [BorrowBook_eq] at h ⊢
  cases h0 : env.fail 0 <;> cases h1 : env.fail 1 <;> cases hs : s.selectStock book.BookID <;>
    cases h2 : env.fail 2 <;> cases h3 : env.fail 3 <;> cases h4 : env.fail 4 <;>
    simp [h0, h1, hs, h2, h3, h4] at h ⊢ <;>
    split_ifs at h ⊢
  all_goals simp_all

/-- On a backend whose first five calls succeed, `BorrowBook` of a book in
stock returns no error. -/
theorem BorrowBook_runs (env : Backend) (s : Store) (book : NewBorrowingRecord) (stock : Int)
    (h0 : env.fail 0 = none) (h1 : env.fail 1 = none) (h2 : env.fail 2 = none)
    (h3 : env.fail 3 = none) (h4 : env.fail 4 = none)
    (hrow : s.selectStock book.BookID = some stock) (hstock : stock ≠ 0) :
    (postgresDB.BorrowBook env (Conn.ofStore s) book).1 = none := by
  rw [BorrowBook_eq]
  simp [h0, h1, h2, h3, h4, hrow, hstock]

/-- A `ReturnBook` that returns no error found an open record and committed
the closing of the records and the increment. -/
theorem ReturnBook_ok (env : Backend) (s : Store) (book : BorrowingRecord)
    (h : (postgresDB.ReturnBook env (Conn.ofStore s) book).1 = none) :
    s.existsOpen book.UserID book.BookID = true ∧
      (postgresDB.ReturnBook env (Conn.ofStore s) book).2.committed = returned env s book := by
  rw [ReturnBook_eq] at h ⊢
  cases h0 : env.fail 0 <;> cases h1 : env.fail 1 <;>
    cases hs : s.existsOpen book.UserID book.BookID <;>
    cases h2 : env.fail 2 <;> cases h3 : env.fail 3 <;> cases h4 : env.fail 4 <;>
    simp_all [Sql.run, returned]

/-- A `ReturnBook` that returns an error commits nothing. -/
theorem ReturnBook_err (env : Backend) (s : Store) (book : BorrowingRecord)
    (h : (postgresDB.ReturnBook env (Conn.ofStore s) book).1 ≠ none) :
    (postgresDB.ReturnBook env (Conn.ofStore s) book).2.committed = s := by
  rw [ReturnBook_eq] at h ⊢
  cases h0 : env.fail 0 <;> cases h1 : env.fail 1 <;>
    cases hs : s.existsOpen book.UserID book.BookID <;>
    cases h2 : env.fail 2 <;> cases h3 : env.fail 3 <;> cases h4 : env.fail 4 <;>
    simp_all

/-- On a backend whose first five calls succeed, `ReturnBook` of a user with
an open record on the book returns no error. -/
theorem ReturnBook_runs (env : Backend) (s : Store) (book : BorrowingRecord)
    (h0 : env.fail 0 = none) (h1 : env.fail 1 = none) (h2 : env.fail 2 = none)
    (h3 : env.fail 3 = none) (h4 : env.fail 4 = none)
    (hopen : s.existsOpen book.UserID book.BookID = true) :
    (postgresDB.ReturnBook env (Conn.ofStore s) book).1 = none := by
  rw [ReturnBook_eq]
  simp [h0, h1, h2, h3, h4, hopen]

/-! ## The tables after a borrow and after a return -/

/-- The stock a `SELECT` finds after an `UPDATE` that rewrites the stock of the
rows with key `id`. -/
theorem selectStock_map (l : List Book) (id id2 : Int) (g : Book → Int) :
    ((l.map fun b => if b.ID = id then { b with Stock := g b } else b).find?
        fun b => decide (b.ID = id2)).map Book.Stock =
      if id2 = id then (l.find? fun b => decide (b.ID = id)).map g
      else (l.find? fun b => decide (b.ID = id2)).map Book.Stock := by
  induction l with
  | nil => simp
  | cons b l ih =>
    by_cases hb : b.ID = id <;> by_cases h2 : id2 = id <;> by_cases hb2 : b.ID = id2 <;>
      simp_all [List.find?_cons]

/-- Away from `math.MinInt64` the Go expression `n - 1` is the integer
`n - 1`. -/
theorem predInt_eq (n : Int) (h : n ≠ MinInt64) : predInt n = n - 1 := by
  simp [predInt, h]

theorem selectStock_borrowed (env : Backend) (s : Store) (book : NewBorrowingRecord)
    (stock : Int) (id : Int) :
    (borrowed env s book stock).selectStock id =
      if id = book.BookID then (s.selectStock id).map fun _ => predInt stock
      else s.selectStock id := by
  unfold Store.selectStock borrowed
  rw [selectStock_map s.books book.BookID id fun _ => predInt stock]
  split_ifs with h
  · subst h; simp [Function.comp_def]
  · rfl

theorem selectStock_returned (env : Backend) (s : Store) (book : BorrowingRecord) (id : Int) :
    (returned env s book).selectStock id =
      if id = book.BookID then (s.selectStock id).map fun stock => stock + 1
      else s.selectStock id := by
  unfold Store.selectStock returned
  rw [selectStock_map s.books book.BookID id fun b => b.Stock + 1]
  split_ifs with h
  · subst h; simp [Function.comp_def]
  · rfl

theorem openRecords_borrowed (env : Backend) (s : Store) (book : NewBorrowingRecord)
    (stock : Int) (id : Int) :
    (borrowed env s book stock).openRecords id =
      s.openRecords id + if id = book.BookID then 1 else 0 := by
  by_cases h : id = book.BookID
  · subst h
    simp [Store.openRecords, borrowed, List.countP_append, List.countP_cons]
  · have h2 : ¬ book.BookID = id := fun e => h e.symm
    simp [Store.openRecords, borrowed, List.countP_append, List.countP_cons, h, h2]

theorem openFor_borrowed (env : Backend) (s : Store) (book : NewBorrowingRecord)
    (stock : Int) (userID bookID : Int) :
    (borrowed env s book stock).openFor userID bookID =
      s.openFor userID bookID +
        if userID = book.UserID ∧ bookID = book.BookID then 1 else 0 := by
  by_cases h : userID = book.UserID ∧ bookID = book.BookID
  · obtain ⟨h1, h2⟩ := h
    subst h1 h2
    simp [Store.openFor, borrowed, List.countP_append, List.countP_cons, BorrowingRow.isOpenFor]
  · have h2 : ¬ (book.UserID = userID ∧ book.BookID = bookID) := fun e => h ⟨e.1.symm, e.2.symm⟩
    simp only [Store.openFor, borrowed, List.countP_append, List.countP_cons, BorrowingRow.isOpenFor,
      if_neg h]
    simp
    intro hu hb
    exact absurd ⟨hu, hb⟩ h2

/-- The row a `closeOpenRecords` statement leaves in place of `r`. -/
theorem isOpenFor_close (r : BorrowingRow) (now : Time) (u b userID bookID : Int) :
    (if r.isOpenFor u b then { r with returned_at := some now } else r).isOpenFor userID bookID =
      (r.isOpenFor userID bookID && !(r.isOpenFor u b)) := by
  by_cases h : r.isOpenFor u b = true
  · rw [if_pos h, h]
    simp [BorrowingRow.isOpenFor]
  · rw [if_neg h]
    simp [h]

theorem openFor_returned (env : Backend) (s : Store) (book : BorrowingRecord)
    (userID bookID : Int) :
    (returned env s book).openFor userID bookID =
      if userID = book.UserID ∧ bookID = book.BookID then 0 else s.openFor userID bookID := by
  simp only [Store.openFor, returned, List.countP_map]
  split_ifs with h
  · obtain ⟨h1, h2⟩ := h
    subst h1 h2
    rw [List.countP_eq_zero]
    intro r _
    simp [isOpenFor_close]
  · apply List.countP_congr
    intro r _
    simp only [Function.comp_apply, isOpenFor_close, Bool.and_eq_true, Bool.not_eq_true']
    constructor
    · exact fun hh => hh.1
    · intro hh
      refine ⟨hh, ?_⟩
      by_contra hc
      simp only [Bool.not_eq_false] at hc
      simp only [BorrowingRow.isOpenFor, Bool.and_eq_true, decide_eq_true_eq] at hh hc
      exact h ⟨hh.1.1.symm.trans hc.1.1, hh.1.2.symm.trans hc.1.2⟩

/-- Closing the open records of a user on a book takes that many records off
the open records of the book. -/
theorem openRecords_close (l : List BorrowingRow) (now : Time) (u b : Int) :
    (l.map fun r => if r.isOpenFor u b then { r with returned_at := some now } else r).countP
        (fun r => decide (r.book_id = b) && r.returned_at.isNone) +
      l.countP (fun r => r.isOpenFor u b) =
    l.countP fun r => decide (r.book_id = b) && r.returned_at.isNone := by
  induction l with
  | nil => simp
  | cons r l ih =>
    simp only [List.map_cons, List.countP_cons]
    by_cases h : r.isOpenFor u b = true
    · have h2 := h
      simp only [BorrowingRow.isOpenFor, Bool.and_eq_true, decide_eq_true_eq,
        Option.isNone_iff_eq_none] at h2
      have e1 : (decide (r.book_id = b) && r.returned_at.isNone) = true := by
        simp [h2.1.2, h2.2]
      rw [if_pos h, if_pos h, if_pos e1]
      simp only [Option.isNone_some, Bool.and_false, Bool.false_eq_true, if_false]
      omega
    · rw [if_neg h, if_neg h]
      omega

theorem openRecords_close_other (l : List BorrowingRow) (now : Time) (u b id : Int)
    (h : id ≠ b) :
    (l.map fun r => if r.isOpenFor u b then { r with returned_at := some now } else r).countP
        (fun r => decide (r.book_id = id) && r.returned_at.isNone) =
    l.countP fun r => decide (r.book_id = id) && r.returned_at.isNone := by
  rw [List.countP_map]
  apply List.countP_congr
  intro r _
  by_cases hr : r.isOpenFor u b = true
  · have h2 := hr
    simp only [BorrowingRow.isOpenFor, Bool.and_eq_true, decide_eq_true_eq] at h2
    have : r.book_id ≠ id := fun e => h (e.symm.trans h2.1.2)
    simp [hr, this]
  · simp [hr]

theorem closedBetween_close (l : List BorrowingRow) (now : Time) (u b : Int) :
    closedBetween l (l.map fun r =>
        if r.isOpenFor u b then { r with returned_at := some now } else r) =
      l.countP fun r => r.isOpenFor u b := by
  unfold closedBetween
  induction l with
  | nil => simp
  | cons r l ih =>
    simp only [List.map_cons, List.zip_cons_cons, List.countP_cons, ih]
    by_cases h : r.isOpenFor u b = true
    · have h2 := h
      simp only [BorrowingRow.isOpenFor, Bool.and_eq_true, decide_eq_true_eq] at h2
      simp [h, h2.2]
    · simp [h]

/-! ## The borrow protocol -/

/-- C1, as stated, fails: for the book row whose stock is `math.MinInt64`
(a stock other than zero), with every statement and the commit succeeding,
`BorrowBook` returns no error and commits the stock `math.MaxInt64`, the
`stock - 1` of the 64-bit `int` having wrapped around, not that stock less
one. -/
theorem borrowBook_wraps_at_min_stock :
    bottomed.selectStock 1 = some MinInt64 ∧ MinInt64 ≠ 0 ∧
    (postgresDB.BorrowBook (okBackend 0 1) (Conn.ofStore bottomed) (borrowOf 123 1 50)).1 = none ∧
    (postgresDB.BorrowBook (okBackend 0 1) (Conn.ofStore bottomed)
      (borrowOf 123 1 50)).2.committed.selectStock 1 = some 9223372036854775807 ∧
    (postgresDB.BorrowBook (okBackend 0 1) (Conn.ofStore bottomed)
      (borrowOf 123 1 50)).2.committed.selectStock 1 ≠ some (MinInt64 - 1) := by
  decide

/-- C1, amended. When the book row exists with a stock other than zero and
other than `math.MinInt64` and every statement and the commit succeed,
`BorrowBook` returns no error, the committed stock of that book is one less,
and every other book row is as it was. -/
theorem borrowBook_decrements_stock (env : Backend) (s : Store) (book : NewBorrowingRecord)
    (stock : Int) (henv : env.healthy) (hrow : s.selectStock book.BookID = some stock)
    (hstock : stock ≠ 0) (hmin : stock ≠ MinInt64) :
    (postgresDB.BorrowBook env (Conn.ofStore s) book).1 = none ∧
    (postgresDB.BorrowBook env (Conn.ofStore s) book).2.committed.selectStock book.BookID =
      some (stock - 1) ∧
    (∀ id, id ≠ book.BookID →
      (postgresDB.BorrowBook env (Conn.ofStore s) book).2.committed.selectStock id =
        s.selectStock id) ∧
    (postgresDB.BorrowBook env (Conn.ofStore s) book).2.committed.books =
      s.books.map fun b => if b.ID = book.BookID then { b with Stock := stock - 1 } else b := by
  have hok := BorrowBook_runs env s book stock (henv 0) (henv 1) (henv 2) (henv 3) (henv 4)
    hrow hstock
  obtain ⟨stock2, hrow2, -, hc⟩ := BorrowBook_ok env s book hok
  have hs : stock2 = stock := Option.some.inj (hrow2.symm.trans hrow)
  subst hs
  refine ⟨hok, ?_, ?_, ?_⟩
  · rw [hc, selectStock_borrowed, if_pos rfl, hrow, predInt_eq stock2 hmin]
    rfl
  · intro id hid
    rw [hc, selectStock_borrowed, if_neg hid]
  · rw [hc]
    simp only [borrowed, predInt_eq stock2 hmin]

theorem borrowBook_decrements_stock_witness :
    (postgresDB.BorrowBook (okBackend 0 1) (Conn.ofStore shelf) (borrowOf 123 1 50)).1 = none ∧
    (postgresDB.BorrowBook (okBackend 0 1) (Conn.ofStore shelf)
      (borrowOf 123 1 50)).2.committed.selectStock 1 = some 4 :=
  have h := borrowBook_decrements_stock (okBackend 0 1) shelf (borrowOf 123 1 50) 5
    (fun _ => rfl) (by decide) (by decide) (by decide)
  ⟨h.1, h.2.1⟩

/-- C2. A successful `BorrowBook` appends exactly one borrowing record: its
user, book and borrowing instant are those of the request, it is open, and its
due date is the borrowing instant plus 72 hours, whatever the other fields of
the request hold. -/
theorem borrowBook_inserts_open_record (env : Backend) (s : Store) (book : NewBorrowingRecord)
    (h : (postgresDB.BorrowBook env (Conn.ofStore s) book).1 = none) :
    ∃ r : BorrowingRow,
      (postgresDB.BorrowBook env (Conn.ofStore s) book).2.committed.borrowing_records =
        s.borrowing_records ++ [r] ∧
      r.user_id = book.UserID ∧ r.book_id = book.BookID ∧ r.borrowed_at = book.BorrowedAt ∧
      r.returned_at = none ∧ r.due_date = book.BorrowedAt + 72 * Hour ∧
      r.due_date - r.borrowed_at = 72 * 60 * 60 * 1000000000 := by
  obtain ⟨stock, -, -, hc⟩ := BorrowBook_ok env s book h
  refine ⟨_, by rw [hc]; rfl, rfl, rfl, rfl, rfl, ?_, ?_⟩
  · simp only [Time.Add]
    norm_num
  · simp only [Time.Add, Hour, Minute, Second, Millisecond, Microsecond, Nanosecond]
    ring

theorem borrowBook_inserts_open_record_witness :
    ∃ r : BorrowingRow,
      (postgresDB.BorrowBook (okBackend 0 1) (Conn.ofStore shelf)
        { BookID := 1, UserID := 123, BorrowedAt := 50, ReturnedAt := 999,
          Status := "returned" }).2.committed.borrowing_records = shelf.borrowing_records ++ [r] ∧
      r.user_id = 123 ∧ r.book_id = 1 ∧ r.borrowed_at = 50 ∧
      r.returned_at = none ∧ r.due_date = 50 + 72 * Hour ∧
      r.due_date - r.borrowed_at = 72 * 60 * 60 * 1000000000 :=
  borrowBook_inserts_open_record (okBackend 0 1) shelf
    { BookID := 1, UserID := 123, BorrowedAt := 50, ReturnedAt := 999, Status := "returned" }
    (by decide)

/-- C3. When the book row exists with stock zero, `BorrowBook` returns an
error, the error being "book is not available" once the transaction has begun
and the select has run; it commits nothing (no record inserted, stock as it
was) and none of the calls it makes is a write. -/
theorem borrowBook_out_of_stock (env : Backend) (s : Store) (book : NewBorrowingRecord)
    (hrow : s.selectStock book.BookID = some 0) :
    (postgresDB.BorrowBook env (Conn.ofStore s) book).1 ≠ none ∧
    (env.fail 0 = none → env.fail 1 = none →
      (postgresDB.BorrowBook env (Conn.ofStore s) book).1 =
        some (Errorf "book is not available")) ∧
    (postgresDB.BorrowBook env (Conn.ofStore s) book).2.committed = s ∧
    ∀ c ∈ (postgresDB.BorrowBook env (Conn.ofStore s) book).2.trace, c.isWrite = false := by
  rw [BorrowBook_eq]
  cases h0 : env.fail 0 <;> cases h1 : env.fail 1 <;>
    simp [h0, h1, hrow, Call.isWrite, Sql.isWrite]

theorem borrowBook_out_of_stock_witness :
    (postgresDB.BorrowBook (okBackend 0 1) (Conn.ofStore shelf) (borrowOf 123 2 50)).1 =
        some (Errorf "book is not available") ∧
    (postgresDB.BorrowBook (okBackend 0 1) (Conn.ofStore shelf) (borrowOf 123 2 50)).2.committed =
      shelf :=
  have h := borrowBook_out_of_stock (okBackend 0 1) shelf (borrowOf 123 2 50) (by decide)
  ⟨h.2.1 rfl rfl, h.2.2.1⟩

/-! ## The return protocol -/

/-- C4, as stated, fails: with two open records of user 7 on book 1 a
`ReturnBook` whose statements all succeed closes both of them, the newer one
included, not just the oldest. -/
theorem returnBook_closes_two_records :
    twoOpen.existsOpen 7 1 = true ∧
    (postgresDB.ReturnBook (okBackend 500 1) (Conn.ofStore twoOpen) (returnOf 7 1)).1 = none ∧
    (postgresDB.ReturnBook (okBackend 500 1) (Conn.ofStore twoOpen)
        (returnOf 7 1)).2.committed.borrowing_records =
      [{ openRow 10 1 7 100 with returned_at := some 500 },
       { openRow 11 1 7 200 with returned_at := some 500 }] ∧
    closedBetween twoOpen.borrowing_records
      (postgresDB.ReturnBook (okBackend 500 1) (Conn.ofStore twoOpen)
        (returnOf 7 1)).2.committed.borrowing_records = 2 ∧
    ¬ closedBetween twoOpen.borrowing_records
      (postgresDB.ReturnBook (okBackend 500 1) (Conn.ofStore twoOpen)
        (returnOf 7 1)).2.committed.borrowing_records = 1 := by
  decide

/-- C4, amended. When the user has an open record on the book and every
statement succeeds, `ReturnBook` returns no error and closes every open record
of that user and book, setting its return instant to the current instant, and
leaves every other record as it was; the number of records it closes is the
number that were open for the pair, so exactly one when exactly one was open.
The stock of the book is incremented by one and no other book is touched. -/
theorem returnBook_closes_open_records (env : Backend) (s : Store) (book : BorrowingRecord)
    (henv : env.healthy) (hopen : s.existsOpen book.UserID book.BookID = true) :
    (postgresDB.ReturnBook env (Conn.ofStore s) book).1 = none ∧
    (postgresDB.ReturnBook env (Conn.ofStore s) book).2.committed.borrowing_records =
      (s.borrowing_records.map fun r =>
        if r.isOpenFor book.UserID book.BookID then { r with returned_at := some env.now }
        else r) ∧
    closedBetween s.borrowing_records
        (postgresDB.ReturnBook env (Conn.ofStore s) book).2.committed.borrowing_records =
      s.openFor book.UserID book.BookID ∧
    (s.openFor book.UserID book.BookID = 1 →
      closedBetween s.borrowing_records
        (postgresDB.ReturnBook env (Conn.ofStore s) book).2.committed.borrowing_records = 1) ∧
    (postgresDB.ReturnBook env (Conn.ofStore s) book).2.committed.selectStock book.BookID =
      (s.selectStock book.BookID).map (fun stock => stock + 1) ∧
    (∀ id, id ≠ book.BookID →
      (postgresDB.ReturnBook env (Conn.ofStore s) book).2.committed.selectStock id =
        s.selectStock id) ∧
    (postgresDB.ReturnBook env (Conn.ofStore s) book).2.committed.books =
      s.books.map fun b => if b.ID = book.BookID then { b with Stock := b.Stock + 1 } else b := by
  have hok := ReturnBook_runs env s book (henv 0) (henv 1) (henv 2) (henv 3) (henv 4) hopen
  obtain ⟨-, hc⟩ := ReturnBook_ok env s book hok
  have hcl : closedBetween s.borrowing_records (returned env s book).borrowing_records =
      s.openFor book.UserID book.BookID :=
    closedBetween_close s.borrowing_records env.now book.UserID book.BookID
  refine ⟨hok, ?_, ?_, ?_, ?_, ?_, ?_⟩
  · rw [hc]; rfl
  · rw [hc]; exact hcl
  · intro h1
    rw [hc, hcl, h1]
  · rw [hc, selectStock_returned, if_pos rfl]
  · intro id hid
    rw [hc, selectStock_returned, if_neg hid]
  · rw [hc]; rfl

theorem returnBook_closes_open_records_witness :
    (postgresDB.ReturnBook (okBackend 500 1) (Conn.ofStore twoOpen) (returnOf 7 1)).1 = none ∧
    closedBetween twoOpen.borrowing_records
        (postgresDB.ReturnBook (okBackend 500 1) (Conn.ofStore twoOpen)
          (returnOf 7 1)).2.committed.borrowing_records = twoOpen.openFor 7 1 ∧
    (postgresDB.ReturnBook (okBackend 500 1) (Conn.ofStore twoOpen)
      (returnOf 7 1)).2.committed.selectStock 1 = some 4 :=
  have h := returnBook_closes_open_records (okBackend 500 1) twoOpen (returnOf 7 1)
    (fun _ => rfl) (by decide)
  ⟨h.1, h.2.2.1, h.2.2.2.2.1⟩

/-- C5. When the user has no open record on the book, `ReturnBook` returns an
error, the error being "borrowing record not found or already returned" once
the transaction has begun and the existence query has run; no call it makes is
a write and the committed tables (every borrowing record, every stock) are the
same after the call as before. -/
theorem returnBook_without_open_record (env : Backend) (s : Store) (book : BorrowingRecord)
    (hnone : s.existsOpen book.UserID book.BookID = false) :
    (postgresDB.ReturnBook env (Conn.ofStore s) book).1 ≠ none ∧
    (env.fail 0 = none → env.fail 1 = none →
      (postgresDB.ReturnBook env (Conn.ofStore s) book).1 =
        some (Errorf "borrowing record not found or already returned")) ∧
    (postgresDB.ReturnBook env (Conn.ofStore s) book).2.committed = s ∧
    ∀ c ∈ (postgresDB.ReturnBook env (Conn.ofStore s) book).2.trace, c.isWrite = false := by
  rw [ReturnBook_eq]
  cases h0 : env.fail 0 <;> cases h1 : env.fail 1 <;>
    simp [h0, h1, hnone, Call.isWrite, Sql.isWrite]

theorem returnBook_without_open_record_witness :
    (postgresDB.ReturnBook (okBackend 500 1) (Conn.ofStore shelf) (returnOf 123 456)).1 =
        some (Errorf "borrowing record not found or already returned") ∧
    (postgresDB.ReturnBook (okBackend 500 1) (Conn.ofStore shelf) (returnOf 123 456)).2.committed =
      shelf :=
  have h := returnBook_without_open_record (okBackend 500 1) shelf (returnOf 123 456) (by decide)
  ⟨h.2.1 rfl rfl, h.2.2.1⟩

/-! ## Invariants of the borrowing engine -/

theorem openFor_pos_of_existsOpen (s : Store) (userID bookID : Int)
    (h : s.existsOpen userID bookID = true) : 0 < s.openFor userID bookID := by
  unfold Store.existsOpen at h
  unfold Store.openFor
  rw [List.any_eq_true] at h
  exact List.countP_pos_iff.mpr h

theorem existsOpen_eq_false_of_openFor (s : Store) (userID bookID : Int)
    (h : s.openFor userID bookID = 0) : s.existsOpen userID bookID = false := by
  cases he : s.existsOpen userID bookID
  · rfl
  · have := openFor_pos_of_existsOpen s userID bookID he
    omega

theorem stockPlusOpen_borrowed (env : Backend) (s : Store) (book : NewBorrowingRecord)
    (stock : Int) (hrow : s.selectStock book.BookID = some stock) (hmin : stock ≠ MinInt64)
    (id : Int) :
    (borrowed env s book stock).stockPlusOpen id = s.stockPlusOpen id := by
  unfold Store.stockPlusOpen
  rw [selectStock_borrowed, openRecords_borrowed]
  by_cases h : id = book.BookID
  · subst h
    rw [if_pos rfl, if_pos rfl, hrow, predInt_eq stock hmin]
    simp only [Option.map_some', Nat.cast_add, Nat.cast_one]
    congr 1
    ring
  · rw [if_neg h, if_neg h]
    simp

theorem stockPlusOpen_returned (env : Backend) (s : Store) (book : BorrowingRecord)
    (hone : s.openFor book.UserID book.BookID = 1) (id : Int) :
    (returned env s book).stockPlusOpen id = s.stockPlusOpen id := by
  unfold Store.stockPlusOpen
  rw [selectStock_returned]
  by_cases h : id = book.BookID
  · subst h
    have hcl := openRecords_close s.borrowing_records env.now book.UserID book.BookID
    have ho : (returned env s book).openRecords book.BookID + 1 = s.openRecords book.BookID := by
      unfold Store.openFor at hone
      rw [hone] at hcl
      exact hcl
    rw [if_pos rfl, ← ho]
    cases s.selectStock book.BookID with
    | none => rfl
    | some stock =>
      simp only [Option.map_some', Nat.cast_add, Nat.cast_one]
      congr 1
      ring
  · rw [if_neg h]
    have ho : (returned env s book).openRecords id = s.openRecords id :=
      openRecords_close_other s.borrowing_records env.now book.UserID book.BookID id h
    rw [ho]

/-- C6, as stated, fails: from two copies of book 1, user 7 borrows it twice
and returns it once, every call succeeding; the one return closes both
records and puts back one copy, so stock plus open records falls from 2 to 1.
It fails too on a single successful borrow of a book whose stock is
`math.MinInt64`: the stock wraps around to `math.MaxInt64` and stock plus open
records goes from `math.MinInt64` to `math.MaxInt64 + 1`. -/
theorem stockPlusOpen_not_invariant :
    twoCopies.stockPlusOpen 1 = some 2 ∧
    (runLoans twoCopies borrowTwiceReturnOnce).map (fun s => s.stockPlusOpen 1) =
      some (some 1) ∧
    (runLoans twoCopies borrowTwiceReturnOnce).map (fun s => s.selectStock 1) =
      some (some 1) ∧
    (runLoans twoCopies borrowTwiceReturnOnce).map (fun s => s.openRecords 1) = some 0 ∧
    bottomed.stockPlusOpen 1 = some (-9223372036854775808) ∧
    (runLoans bottomed borrowOnce).map (fun s => s.stockPlusOpen 1) =
      some (some 9223372036854775808) := by
  decide

/-- C6, amended. For every book and every sequence of `BorrowBook` and
`ReturnBook` calls that all succeed, in which every `ReturnBook` is called
when its user has exactly one open record on its book and no `BorrowBook` is
called when the stock of its book is `math.MinInt64`, the stock of the book
plus the number of its open borrowing records is the same after the sequence
as before it. -/
theorem stockPlusOpen_invariant (ops : List (Backend × Loan)) (s s2 : Store) (bookID : Int)
    (hret : returnsFindOneOpen s ops) (hmin : borrowsFindStockAboveMin s ops)
    (hrun : runLoans s ops = some s2) :
    s2.stockPlusOpen bookID = s.stockPlusOpen bookID := by
  induction ops generalizing s with
  | nil =>
    simp only [runLoans, Option.some.injEq] at hrun
    rw [hrun]
  | cons p rest ih =>
    obtain ⟨env, op⟩ := p
    obtain ⟨hhere, hrest⟩ := hret
    obtain ⟨hminHere, hminRest⟩ := hmin
    simp only [runLoans] at hrun
    cases op with
    | borrow book =>
      cases hr : (postgresDB.BorrowBook env (Conn.ofStore s) book).1 with
      | some e => simp [Loan.call, hr] at hrun
      | none =>
        obtain ⟨stock, hrow, -, hc⟩ := BorrowBook_ok env s book hr
        have hne : stock ≠ MinInt64 := by
          intro he
          exact hminHere (by rw [hrow, he])
        simp only [Loan.call, hr, hc] at hrun hrest hminRest
        rw [ih _ hrest hminRest hrun, stockPlusOpen_borrowed env s book stock hrow hne]
    | giveBack book =>
      cases hr : (postgresDB.ReturnBook env (Conn.ofStore s) book).1 with
      | some e => simp [Loan.call, hr] at hrun
      | none =>
        obtain ⟨hopen, hc⟩ := ReturnBook_ok env s book hr
        have hpos := openFor_pos_of_existsOpen s book.UserID book.BookID hopen
        have hone : s.openFor book.UserID book.BookID = 1 := by
          have : s.openFor book.UserID book.BookID ≤ 1 := hhere
          omega
        simp only [Loan.call, hr, hc] at hrun hrest hminRest
        rw [ih _ hrest hminRest hrun, stockPlusOpen_returned env s book hone]

theorem stockPlusOpen_invariant_witness :
    returnsFindOneOpen twoCopies borrowReturnBorrow ∧
    borrowsFindStockAboveMin twoCopies borrowReturnBorrow ∧
    (runLoans twoCopies borrowReturnBorrow).map (fun s => s.stockPlusOpen 1) =
      some (twoCopies.stockPlusOpen 1) := by
  have hret : returnsFindOneOpen twoCopies borrowReturnBorrow := by
    refine ⟨trivial, ?_, trivial, trivial⟩
    decide
  have hmin : borrowsFindStockAboveMin twoCopies borrowReturnBorrow := by
    refine ⟨?_, trivial, ?_, trivial⟩ <;> decide
  have hrun : ∃ s2, runLoans twoCopies borrowReturnBorrow = some s2 := by
    cases h : runLoans twoCopies borrowReturnBorrow with
    | none => exact absurd h (by decide)
    | some s2 => exact ⟨s2, rfl⟩
  obtain ⟨s2, h2⟩ := hrun
  refine ⟨hret, hmin, ?_⟩
  rw [h2, Option.map_some',
    stockPlusOpen_invariant borrowReturnBorrow twoCopies s2 1 hret hmin h2]

theorem atMostOneOpen_borrowed (env : Backend) (s : Store) (book : NewBorrowingRecord)
    (stock : Int) (hinv : s.atMostOneOpen) (hfree : s.openFor book.UserID book.BookID = 0) :
    (borrowed env s book stock).atMostOneOpen := by
  intro userID bookID
  rw [openFor_borrowed]
  split_ifs with h
  · obtain ⟨h1, h2⟩ := h
    subst h1 h2
    omega
  · have := hinv userID bookID
    omega

theorem atMostOneOpen_returned (env : Backend) (s : Store) (book : BorrowingRecord)
    (hinv : s.atMostOneOpen) : (returned env s book).atMostOneOpen := by
  intro userID bookID
  rw [openFor_returned]
  split_ifs with h
  · omega
  · exact hinv userID bookID

/-- Calls that never borrow for a pair with an open record keep every pair at
one open record at most. -/
theorem atMostOneOpen_runLoans (ops : List (Backend × Loan)) (s s2 : Store)
    (hinv : s.atMostOneOpen) (hfresh : borrowsFindNoneOpen s ops)
    (hrun : runLoans s ops = some s2) : s2.atMostOneOpen := by
  induction ops generalizing s with
  | nil =>
    simp only [runLoans, Option.some.injEq] at hrun
    rw [← hrun]
    exact hinv
  | cons p rest ih =>
    obtain ⟨env, op⟩ := p
    obtain ⟨hhere, hrest⟩ := hfresh
    simp only [runLoans] at hrun
    cases op with
    | borrow book =>
      cases hr : (postgresDB.BorrowBook env (Conn.ofStore s) book).1 with
      | some e => simp [Loan.call, hr] at hrun
      | none =>
        obtain ⟨stock, -, -, hc⟩ := BorrowBook_ok env s book hr
        simp only [Loan.call, hr, hc] at hrun hrest
        exact ih _ (atMostOneOpen_borrowed env s book stock hinv hhere) hrest hrun
    | giveBack book =>
      cases hr : (postgresDB.ReturnBook env (Conn.ofStore s) book).1 with
      | some e => simp [Loan.call, hr] at hrun
      | none =>
        obtain ⟨-, hc⟩ := ReturnBook_ok env s book hr
        simp only [Loan.call, hr, hc] at hrun hrest
        exact ih _ (atMostOneOpen_returned env s book hinv) hrest hrun

/-- C7, as stated, fails: from an empty `borrowing_records` table and two
copies of book 1, user 7 borrows the book twice, both calls succeeding, and
then holds two open records on it. -/
theorem two_open_records_reachable :
    twoCopies.borrowing_records = [] ∧
    (runLoans twoCopies borrowTwice).map (fun s => s.openFor 7 1) = some 2 ∧
    (runLoans twoCopies borrowTwice).map (fun s => decide (s.openFor 7 1 ≤ 1)) = some false := by
  decide

/-- C7, amended. In every state reached from an empty `borrowing_records`
table by successful `BorrowBook` and `ReturnBook` calls, none of which borrows
for a user who already has an open record on the book, each user has at most
one open borrowing record on each book. -/
theorem atMostOneOpen_of_fresh_borrows (ops : List (Backend × Loan)) (s s2 : Store)
    (hempty : s.borrowing_records = []) (hfresh : borrowsFindNoneOpen s ops)
    (hrun : runLoans s ops = some s2) :
    ∀ userID bookID, s2.openFor userID bookID ≤ 1 := by
  have hinv : s.atMostOneOpen := by
    intro userID bookID
    simp [Store.openFor, hempty]
  exact atMostOneOpen_runLoans ops s s2 hinv hfresh hrun

theorem atMostOneOpen_of_fresh_borrows_witness :
    twoCopies.borrowing_records = [] ∧ borrowsFindNoneOpen twoCopies borrowReturnBorrow ∧
    ∃ s2, runLoans twoCopies borrowReturnBorrow = some s2 ∧
      ∀ userID bookID, s2.openFor userID bookID ≤ 1 := by
  have hfresh : borrowsFindNoneOpen twoCopies borrowReturnBorrow := by
    refine ⟨?_, trivial, ?_, trivial⟩ <;> decide
  have hrun : ∃ s2, runLoans twoCopies borrowReturnBorrow = some s2 := by
    cases h : runLoans twoCopies borrowReturnBorrow with
    | none => exact absurd h (by decide)
    | some s2 => exact ⟨s2, rfl⟩
  obtain ⟨s2, h2⟩ := hrun
  exact ⟨rfl, hfresh, s2, h2,
    atMostOneOpen_of_fresh_borrows borrowReturnBorrow twoCopies s2 rfl hfresh h2⟩

/-- C8. For a book with a stock above zero and a user with no open record on
it, a successful `BorrowBook` followed by a successful `ReturnBook` of the same
user and book leaves the stock of the book as it was; the pair of calls adds
exactly one borrowing record, which is closed, so the user has no open record
on the book and one more closed record than before. -/
theorem borrow_then_return_roundtrip (env1 env2 : Backend) (s : Store)
    (book : NewBorrowingRecord) (back : BorrowingRecord) (stock : Int)
    (huser : back.UserID = book.UserID) (hbook : back.BookID = book.BookID)
    (hrow : s.selectStock book.BookID = some stock) (hpos : 0 < stock)
    (hfree : s.openFor book.UserID book.BookID = 0)
    (h1 : (postgresDB.BorrowBook env1 (Conn.ofStore s) book).1 = none)
    (h2 : (postgresDB.ReturnBook env2
      (Conn.ofStore (postgresDB.BorrowBook env1 (Conn.ofStore s) book).2.committed) back).1 = none) :
    (postgresDB.ReturnBook env2
      (Conn.ofStore (postgresDB.BorrowBook env1 (Conn.ofStore s) book).2.committed)
      back).2.committed.selectStock book.BookID = some stock ∧
    (postgresDB.ReturnBook env2
      (Conn.ofStore (postgresDB.BorrowBook env1 (Conn.ofStore s) book).2.committed)
      back).2.committed.borrowing_records =
      s.borrowing_records ++
        [{ id := env1.nextID, book_id := book.BookID, user_id := book.UserID,
           borrowed_at := book.BorrowedAt, due_date := book.BorrowedAt + 72 * Hour,
           returned_at := some env2.now }] ∧
    (postgresDB.ReturnBook env2
      (Conn.ofStore (postgresDB.BorrowBook env1 (Conn.ofStore s) book).2.committed)
      back).2.committed.openFor book.UserID book.BookID = 0 ∧
    (postgresDB.ReturnBook env2
      (Conn.ofStore (postgresDB.BorrowBook env1 (Conn.ofStore s) book).2.committed)
      back).2.committed.closedFor book.UserID book.BookID =
      s.closedFor book.UserID book.BookID + 1 := by
  obtain ⟨stock2, hrow2, -, hc1⟩ := BorrowBook_ok env1 s book h1
  have hs : stock2 = stock := Option.some.inj (hrow2.symm.trans hrow)
  subst hs
  rw [hc1] at h2 ⊢
  obtain ⟨-, hc2⟩ := ReturnBook_ok env2 _ back h2
  rw [hc2]
  have hclosed : ∀ r ∈ s.borrowing_records, r.isOpenFor book.UserID book.BookID = false := by
    intro r hr
    have := (List.countP_eq_zero.mp hfree) r hr
    simpa using this
  have hrec : (returned env2 (borrowed env1 s book stock2) back).borrowing_records =
      s.borrowing_records ++
        [{ id := env1.nextID, book_id := book.BookID, user_id := book.UserID,
           borrowed_at := book.BorrowedAt, due_date := book.BorrowedAt + 72 * Hour,
           returned_at := some env2.now }] := by
    simp only [returned, borrowed, List.map_append, List.map_cons, List.map_nil, huser, hbook]
    congr 1
    · conv_rhs => rw [← List.map_id s.borrowing_records]
      apply List.map_congr_left
      intro r hr
      simp [hclosed r hr]
    · simp [BorrowingRow.isOpenFor, Time.Add]
  refine ⟨?_, hrec, ?_, ?_⟩
  · have hmin : stock2 ≠ MinInt64 := by
      intro he
      rw [he] at hpos
      exact absurd hpos (by decide)
    rw [selectStock_returned, hbook, if_pos rfl, selectStock_borrowed, if_pos rfl, hrow,
      predInt_eq stock2 hmin]
    simp
  · rw [openFor_returned, if_pos ⟨huser.symm, hbook.symm⟩]
  · simp only [Store.closedFor] at hrec ⊢
    rw [hrec]
    simp [List.countP_append, List.countP_cons]

theorem borrow_then_return_roundtrip_witness :
    (postgresDB.ReturnBook (okBackend 900 2)
      (Conn.ofStore (postgresDB.BorrowBook (okBackend 100 1) (Conn.ofStore twoCopies)
        (borrowOf 7 1 100)).2.committed) (returnOf 7 1)).2.committed.selectStock 1 = some 2 ∧
    (postgresDB.ReturnBook (okBackend 900 2)
      (Conn.ofStore (postgresDB.BorrowBook (okBackend 100 1) (Conn.ofStore twoCopies)
        (borrowOf 7 1 100)).2.committed) (returnOf 7 1)).2.committed.openFor 7 1 = 0 ∧
    (postgresDB.ReturnBook (okBackend 900 2)
      (Conn.ofStore (postgresDB.BorrowBook (okBackend 100 1) (Conn.ofStore twoCopies)
        (borrowOf 7 1 100)).2.committed) (returnOf 7 1)).2.committed.closedFor 7 1 = 1 :=
  have h := borrow_then_return_roundtrip (okBackend 100 1) (okBackend 900 2) twoCopies
    (borrowOf 7 1 100) (returnOf 7 1) 2 rfl rfl (by decide) (by decide) (by decide)
    (by decide) (by decide)
  ⟨h.1, h.2.2.1, h.2.2.2⟩

/-- C9. `BorrowBook` and `ReturnBook` are atomic: whenever either returns an
error, whichever call failed (the begin, the query, a write after the stock
has been written in the transaction, or the commit), the committed tables are
those before the call and no transaction is left open. -/
theorem borrow_return_atomic (env : Backend) (s : Store) :
    (∀ book : NewBorrowingRecord,
      (postgresDB.BorrowBook env (Conn.ofStore s) book).1 ≠ none →
        (postgresDB.BorrowBook env (Conn.ofStore s) book).2.committed = s ∧
        (postgresDB.BorrowBook env (Conn.ofStore s) book).2.tx = none) ∧
    (∀ book : BorrowingRecord,
      (postgresDB.ReturnBook env (Conn.ofStore s) book).1 ≠ none →
        (postgresDB.ReturnBook env (Conn.ofStore s) book).2.committed = s ∧
        (postgresDB.ReturnBook env (Conn.ofStore s) book).2.tx = none) := by
  constructor
  · intro book h
    refine ⟨BorrowBook_err env s book h, ?_⟩
    rw [BorrowBook_eq]
    cases h0 : env.fail 0 <;> cases h1 : env.fail 1 <;> cases hs : s.selectStock book.BookID <;>
      cases h2 : env.fail 2 <;> cases h3 : env.fail 3 <;> cases h4 : env.fail 4 <;>
      simp <;> split_ifs <;> rfl
  · intro book h
    refine ⟨ReturnBook_err env s book h, ?_⟩
    rw [ReturnBook_eq]
    cases h0 : env.fail 0 <;> cases h1 : env.fail 1 <;>
      cases hs : s.existsOpen book.UserID book.BookID <;>
      cases h2 : env.fail 2 <;> cases h3 : env.fail 3 <;> cases h4 : env.fail 4 <;>
      simp

theorem borrow_return_atomic_witness :
    (postgresDB.BorrowBook (failingBackend 3 (.errorString "connection reset"))
      (Conn.ofStore shelf) (borrowOf 123 1 50)).1 =
      some (ErrorfW "failed to insert borrowing record" (.errorString "connection reset")) ∧
    (postgresDB.BorrowBook (failingBackend 3 (.errorString "connection reset"))
      (Conn.ofStore shelf) (borrowOf 123 1 50)).2.committed = shelf ∧
    (postgresDB.ReturnBook (failingBackend 4 (.errorString "connection reset"))
      (Conn.ofStore twoOpen) (returnOf 7 1)).2.committed = twoOpen :=
  ⟨by decide,
   ((borrow_return_atomic (failingBackend 3 (.errorString "connection reset")) shelf).1
      (borrowOf 123 1 50) (by decide)).1,
   ((borrow_return_atomic (failingBackend 4 (.errorString "connection reset")) twoOpen).2
      (returnOf 7 1) (by decide)).1⟩

/-! ## The stock is never negative -/

/-- The stock a `SELECT` finds is the stock of a row of the table. -/
theorem selectStock_mem (s : Store) (bookID stock : Int)
    (h : s.selectStock bookID = some stock) : ∃ b ∈ s.books, b.Stock = stock := by
  unfold Store.selectStock at h
  cases hf : s.books.find? (fun b => decide (b.ID = bookID)) with
  | none => simp [hf] at h
  | some b =>
    rw [hf] at h
    exact ⟨b, List.mem_of_find?_eq_some hf, Option.some.inj h⟩

/-- C10, as stated, fails: `UpdateBook` writes the stock it is given, so from
tables in which every stock is at least zero a successful `UpdateBook` (and
likewise a successful `CreateBook`) carrying the stock -1 commits a book with
a negative stock. -/
theorem updateBook_commits_negative_stock :
    shelf.stockNonneg ∧
    (postgresDB.UpdateBook (okBackend 0 1) (Conn.ofStore shelf) (sampleBook 1 (-1))).1 = none ∧
    ¬ (postgresDB.UpdateBook (okBackend 0 1) (Conn.ofStore shelf)
        (sampleBook 1 (-1))).2.committed.stockNonneg ∧
    (postgresDB.CreateBook (okBackend 0 3) (Conn.ofStore shelf)
        { Title := "Emma", ISBN := "", AuthorID := 2, CategoryID := 1, Stock := -1,
          PublishedDate := 0, Description := "" }).1 = none ∧
    ¬ (postgresDB.CreateBook (okBackend 0 3) (Conn.ofStore shelf)
        { Title := "Emma", ISBN := "", AuthorID := 2, CategoryID := 1, Stock := -1,
          PublishedDate := 0, Description := "" }).2.committed.stockNonneg := by
  refine ⟨?_, rfl, ?_, rfl, ?_⟩
  · intro b hb
    simp only [shelf, sampleBook, List.mem_cons, List.mem_singleton, List.not_mem_nil,
      or_false] at hb
    rcases hb with rfl | rfl <;> decide
  · intro h
    have := h { sampleBook 1 5 with Stock := -1 } (by
      simp [postgresDB.UpdateBook, Conn.Exec, Conn.ofStore, okBackend, Sql.run, shelf, sampleBook])
    exact absurd this (by decide)
  · intro h
    have := h { ID := 3, Title := "Emma", ISBN := "", AuthorID := 2, CategoryID := 1,
                Stock := -1, PublishedDate := 0, Description := "", CreatedAt := 0,
                UpdatedAt := 0 } (by
      simp [postgresDB.CreateBook, Conn.Exec, Conn.ofStore, okBackend, Sql.run, shelf])
    exact absurd this (by decide)

/-- C10, amended. From tables in which every book has a stock of at least
zero, every book still has a stock of at least zero after a successful
`DeleteBook`, `BorrowBook` or `ReturnBook`, and after a successful `CreateBook`
or `UpdateBook` whose argument carries a stock of at least zero. -/
theorem stockNonneg_preserved (env : Backend) (s : Store) (hinv : s.stockNonneg) :
    (∀ newBook : NewBook, 0 ≤ newBook.Stock →
      (postgresDB.CreateBook env (Conn.ofStore s) newBook).1 = none →
      (postgresDB.CreateBook env (Conn.ofStore s) newBook).2.committed.stockNonneg) ∧
    (∀ book : Book, 0 ≤ book.Stock →
      (postgresDB.UpdateBook env (Conn.ofStore s) book).1 = none →
      (postgresDB.UpdateBook env (Conn.ofStore s) book).2.committed.stockNonneg) ∧
    (∀ id : Int,
      (postgresDB.DeleteBook env (Conn.ofStore s) id).1 = none →
      (postgresDB.DeleteBook env (Conn.ofStore s) id).2.committed.stockNonneg) ∧
    (∀ book : NewBorrowingRecord,
      (postgresDB.BorrowBook env (Conn.ofStore s) book).1 = none →
      (postgresDB.BorrowBook env (Conn.ofStore s) book).2.committed.stockNonneg) ∧
    (∀ book : BorrowingRecord,
      (postgresDB.ReturnBook env (Conn.ofStore s) book).1 = none →
      (postgresDB.ReturnBook env (Conn.ofStore s) book).2.committed.stockNonneg) := by
  refine ⟨?_, ?_, ?_, ?_, ?_⟩
  · intro newBook hstock _ b hb
    cases h0 : env.fail 0 <;>
      simp only [postgresDB.CreateBook, Conn.Exec, Conn.ofStore, List.length_nil, h0, Sql.run,
        List.mem_append, List.mem_singleton] at hb
    · rcases hb with hb | rfl
      · exact hinv b hb
      · exact hstock
    · exact hinv b hb
  · intro book hstock _ b hb
    cases h0 : env.fail 0 <;>
      simp only [postgresDB.UpdateBook, Conn.Exec, Conn.ofStore, List.length_nil, h0, Sql.run,
        List.mem_map] at hb
    · obtain ⟨b0, hb0, rfl⟩ := hb
      split_ifs
      · exact hstock
      · exact hinv b0 hb0
    · exact hinv b hb
  · intro id _ b hb
    cases h0 : env.fail 0 <;>
      simp only [postgresDB.DeleteBook, Conn.Exec, Conn.ofStore, List.length_nil, h0, Sql.run,
        List.mem_filter] at hb
    · exact hinv b hb.1
    · exact hinv b hb
  · intro book hok b hb
    obtain ⟨stock, hrow, hne, hc⟩ := BorrowBook_ok env s book hok
    obtain ⟨b1, hb1, hst⟩ := selectStock_mem s book.BookID stock hrow
    have h1 : 0 ≤ stock := hst ▸ hinv b1 hb1
    rw [hc] at hb
    simp only [borrowed, List.mem_map] at hb
    obtain ⟨b0, hb0, rfl⟩ := hb
    have hmin : stock ≠ MinInt64 := by
      intro he
      rw [he] at h1
      exact absurd h1 (by decide)
    split_ifs
    · show 0 ≤ predInt stock
      rw [predInt_eq stock hmin]
      omega
    · exact hinv b0 hb0
  · intro book hok b hb
    obtain ⟨-, hc⟩ := ReturnBook_ok env s book hok
    rw [hc] at hb
    simp only [returned, List.mem_map] at hb
    obtain ⟨b0, hb0, rfl⟩ := hb
    split_ifs
    · show 0 ≤ b0.Stock + 1
      have := hinv b0 hb0
      omega
    · exact hinv b0 hb0

theorem stockNonneg_preserved_witness :
    shelf.stockNonneg ∧
    (postgresDB.UpdateBook (okBackend 0 1) (Conn.ofStore shelf)
        (sampleBook 2 9)).2.committed.stockNonneg ∧
    (postgresDB.BorrowBook (okBackend 0 1) (Conn.ofStore shelf)
        (borrowOf 123 1 50)).2.committed.stockNonneg := by
  have hinv : shelf.stockNonneg := by
    intro b hb
    simp only [shelf, sampleBook, List.mem_cons, List.mem_singleton, List.not_mem_nil,
      or_false] at hb
    rcases hb with rfl | rfl <;> decide
  have h := stockNonneg_preserved (okBackend 0 1) shelf hinv
  exact ⟨hinv, h.2.1 (sampleBook 2 9) (by decide) rfl, h.2.2.2.1 (borrowOf 123 1 50) (by decide)⟩

/-! ## The instants of a borrowing record -/

/-- C11, as stated, fails: user 7 borrows book 1 with the client-supplied
instant 1000 and returns it when the clock reads 500; both calls succeed and
the record is closed with a return instant earlier than its borrowing
instant. -/
theorem returned_before_borrowed :
    (postgresDB.BorrowBook (okBackend 0 1) (Conn.ofStore twoCopies) lateBorrow).1 = none ∧
    (postgresDB.ReturnBook (okBackend 500 2)
      (Conn.ofStore (postgresDB.BorrowBook (okBackend 0 1) (Conn.ofStore twoCopies)
        lateBorrow).2.committed) (returnOf 7 1)).1 = none ∧
    (postgresDB.ReturnBook (okBackend 500 2)
      (Conn.ofStore (postgresDB.BorrowBook (okBackend 0 1) (Conn.ofStore twoCopies)
        lateBorrow).2.committed) (returnOf 7 1)).2.committed.borrowing_records =
      [{ id := 1, book_id := 1, user_id := 7, borrowed_at := 1000,
         due_date := 1000 + 72 * Hour, returned_at := some 500 }] ∧
    ¬ ((1000 : Time) ≤ 500) := by
  decide

/-- C11, amended. A successful `ReturnBook` closes each open record of its
user and book with the clock value at return time as return instant and
leaves the borrowing instant (the one the client supplied to `BorrowBook`)
as it was; so the return instant is at or after the borrowing instant
whenever the clock at return time is at or after that borrowing instant. -/
theorem returnBook_stamps_clock (env : Backend) (s : Store) (back : BorrowingRecord)
    (hok : (postgresDB.ReturnBook env (Conn.ofStore s) back).1 = none) :
    List.Forall₂
      (fun r r2 => r.isOpenFor back.UserID back.BookID = true →
        r2.returned_at = some env.now ∧ r2.borrowed_at = r.borrowed_at ∧
        (r.borrowed_at ≤ env.now → ∀ t, r2.returned_at = some t → r2.borrowed_at ≤ t))
      s.borrowing_records
      (postgresDB.ReturnBook env (Conn.ofStore s) back).2.committed.borrowing_records := by
  obtain ⟨-, hc⟩ := ReturnBook_ok env s back hok
  rw [hc]
  simp only [returned]
  rw [List.forall₂_map_right_iff, List.forall₂_same]
  intro r _ hopen
  rw [if_pos hopen]
  refine ⟨rfl, rfl, ?_⟩
  intro hle t ht
  have : env.now = t := Option.some.inj ht
  rw [← this]
  exact hle

theorem returnBook_stamps_clock_witness :
    List.Forall₂
      (fun r r2 => r.isOpenFor 7 1 = true →
        r2.returned_at = some 500 ∧ r2.borrowed_at = r.borrowed_at ∧
        (r.borrowed_at ≤ 500 → ∀ t, r2.returned_at = some t → r2.borrowed_at ≤ t))
      twoOpen.borrowing_records
      (postgresDB.ReturnBook (okBackend 500 1) (Conn.ofStore twoOpen)
        (returnOf 7 1)).2.committed.borrowing_records :=
  returnBook_stamps_clock (okBackend 500 1) twoOpen (returnOf 7 1) (by decide)

/-! ## Records are neither deleted nor reopened -/

theorem stepsTo_refl (r : BorrowingRow) : r.stepsTo r :=
  ⟨rfl, rfl, rfl, rfl, rfl, fun _ => rfl⟩

theorem recordsKept_refl (l : List BorrowingRow) : recordsKept l l :=
  ⟨l, [], (List.append_nil l).symm, List.forall₂_same.mpr fun r _ => stepsTo_refl r⟩

theorem recordsKept_borrowed (env : Backend) (s : Store) (book : NewBorrowingRecord)
    (stock : Int) :
    recordsKept s.borrowing_records (borrowed env s book stock).borrowing_records :=
  ⟨s.borrowing_records, _, rfl, List.forall₂_same.mpr fun r _ => stepsTo_refl r⟩

theorem recordsKept_returned (env : Backend) (s : Store) (back : BorrowingRecord) :
    recordsKept s.borrowing_records (returned env s back).borrowing_records := by
  refine ⟨_, [], (List.append_nil _).symm, ?_⟩
  simp only [returned]
  rw [List.forall₂_map_right_iff, List.forall₂_same]
  intro r _
  by_cases h : r.isOpenFor back.UserID back.BookID = true
  · rw [if_pos h]
    refine ⟨rfl, rfl, rfl, rfl, rfl, ?_⟩
    intro hsome
    simp only [BorrowingRow.isOpenFor, Bool.and_eq_true] at h
    have hnone := h.2
    rw [Option.isNone_iff_eq_none] at hnone
    rw [hnone] at hsome
    exact absurd hsome (by simp)
  · rw [if_neg h]
    exact stepsTo_refl r

/-- C12. Borrowing records follow the open-to-closed state machine: after any
store operation (`CreateBook`, `UpdateBook`, `DeleteBook`, `GetBookByID`,
`BorrowBook`, `ReturnBook`, failed or not) every record that was in the table
is still there in the same place, only its return instant may differ, and a
record whose return instant was set is unchanged: no record is deleted, none
is reopened, and no return instant is overwritten. -/
theorem records_never_deleted_nor_reopened (env : Backend) (s : Store) :
    (∀ newBook : NewBook, recordsKept s.borrowing_records
      (postgresDB.CreateBook env (Conn.ofStore s) newBook).2.committed.borrowing_records) ∧
    (∀ book : Book, recordsKept s.borrowing_records
      (postgresDB.UpdateBook env (Conn.ofStore s) book).2.committed.borrowing_records) ∧
    (∀ id : Int, recordsKept s.borrowing_records
      (postgresDB.DeleteBook env (Conn.ofStore s) id).2.committed.borrowing_records) ∧
    (∀ bookID : Int, recordsKept s.borrowing_records
      (postgresDB.GetBookByID env (Conn.ofStore s) bookID).2.committed.borrowing_records) ∧
    (∀ book : NewBorrowingRecord, recordsKept s.borrowing_records
      (postgresDB.BorrowBook env (Conn.ofStore s) book).2.committed.borrowing_records) ∧
    (∀ back : BorrowingRecord, recordsKept s.borrowing_records
      (postgresDB.ReturnBook env (Conn.ofStore s) back).2.committed.borrowing_records) := by
  refine ⟨?_, ?_, ?_, ?_, ?_, ?_⟩
  · intro newBook
    cases h0 : env.fail 0 <;>
      simp only [postgresDB.CreateBook, Conn.Exec, Conn.ofStore, List.length_nil, h0, Sql.run] <;>
      exact recordsKept_refl _
  · intro book
    cases h0 : env.fail 0 <;>
      simp only [postgresDB.UpdateBook, Conn.Exec, Conn.ofStore, List.length_nil, h0, Sql.run] <;>
      exact recordsKept_refl _
  · intro id
    cases h0 : env.fail 0 <;>
      simp only [postgresDB.DeleteBook, Conn.Exec, Conn.ofStore, List.length_nil, h0, Sql.run] <;>
      exact recordsKept_refl _
  · intro bookID
    cases h0 : env.fail 0 <;> cases hb : s.selectBook bookID <;>
      simp only [postgresDB.GetBookByID, Conn.QueryRowBook, Conn.ofStore, List.length_nil, h0,
        hb] <;>
      first
        | exact recordsKept_refl _
        | (split_ifs <;> exact recordsKept_refl _)
  · intro book
    cases hr : (postgresDB.BorrowBook env (Conn.ofStore s) book).1 with
    | none =>
      obtain ⟨stock, -, -, hc⟩ := BorrowBook_ok env s book hr
      rw [hc]
      exact recordsKept_borrowed env s book stock
    | some e =>
      rw [BorrowBook_err env s book (by rw [hr]; simp)]
      exact recordsKept_refl _
  · intro back
    cases hr : (postgresDB.ReturnBook env (Conn.ofStore s) back).1 with
    | none =>
      obtain ⟨-, hc⟩ := ReturnBook_ok env s back hr
      rw [hc]
      exact recordsKept_returned env s back
    | some e =>
      rw [ReturnBook_err env s back (by rw [hr]; simp)]
      exact recordsKept_refl _

/-! ## One repeatable-read transaction -/

/-- C14. `BorrowBook` and `ReturnBook` each begin exactly one transaction,
with isolation level `RepeatableRead`, as their first call, and every call
they make after it (the `FOR UPDATE` select or the existence query, the
writes, the commit, the rollback) is made on that transaction, none on the
pool; when they return no error the calls are the five of the protocol and
the deferred rollback. -/
theorem engine_uses_one_repeatable_read_tx (env : Backend) (s : Store) :
    (∀ book : NewBorrowingRecord,
      (∃ rest, (postgresDB.BorrowBook env (Conn.ofStore s) book).2.trace =
          Call.poolBeginTx { IsoLevel := .RepeatableRead } :: rest ∧
        ∀ c ∈ rest, c.onTx = true) ∧
      ((postgresDB.BorrowBook env (Conn.ofStore s) book).1 = none →
        ∃ stock, (postgresDB.BorrowBook env (Conn.ofStore s) book).2.trace =
          [.poolBeginTx { IsoLevel := .RepeatableRead },
           .txQueryRow (.selectStockForUpdate book.BookID),
           .txExec (.updateStock (stock - 1) book.BookID),
           .txExec (.insertBorrowingRecord book.UserID book.BookID book.BorrowedAt
             (Time.Add book.BorrowedAt (3 * 24 * Hour))),
           .txCommit, .txRollback])) ∧
    (∀ back : BorrowingRecord,
      (∃ rest, (postgresDB.ReturnBook env (Conn.ofStore s) back).2.trace =
          Call.poolBeginTx { IsoLevel := .RepeatableRead } :: rest ∧
        ∀ c ∈ rest, c.onTx = true) ∧
      ((postgresDB.ReturnBook env (Conn.ofStore s) back).1 = none →
        (postgresDB.ReturnBook env (Conn.ofStore s) back).2.trace =
          [.poolBeginTx { IsoLevel := .RepeatableRead },
           .txQueryRow (.existsOpenRecord back.UserID back.BookID),
           .txExec (.closeOpenRecords env.now back.UserID back.BookID),
           .txExec (.incrementStock back.BookID),
           .txCommit, .txRollback])) := by
  constructor
  · intro book
    constructor
    · rw [BorrowBook_eq]
      cases h0 : env.fail 0 <;> cases h1 : env.fail 1 <;>
        cases hs : s.selectStock book.BookID <;>
        cases h2 : env.fail 2 <;> cases h3 : env.fail 3 <;> cases h4 : env.fail 4 <;>
        simp only [] <;>
        first
          | exact ⟨_, rfl, by simp [Call.onTx]⟩
          | (split_ifs <;> exact ⟨_, rfl, by simp [Call.onTx]⟩)
    · intro hok
      obtain ⟨stock, hrow, hne, -⟩ := BorrowBook_ok env s book hok
      refine ⟨predInt stock + 1, ?_⟩
      rw [BorrowBook_eq] at hok ⊢
      cases h0 : env.fail 0 <;> cases h1 : env.fail 1 <;>
        cases h2 : env.fail 2 <;> cases h3 : env.fail 3 <;> cases h4 : env.fail 4 <;>
        simp [h0, h1, h2, h3, h4, hrow, hne] at hok ⊢
  · intro back
    rw [ReturnBook_eq]
    cases h0 : env.fail 0 <;> cases h1 : env.fail 1 <;>
      cases hs : s.existsOpen back.UserID back.BookID <;>
      cases h2 : env.fail 2 <;> cases h3 : env.fail 3 <;> cases h4 : env.fail 4 <;>
      simp [Call.onTx]

/-! ## Reading one book -/

/-- C15. `GetBookByID` tells a missing row from another failure: when the
query yields no row it returns the zero `Book` and the error
"book with ID <id> not found"; when the query fails with an error that is
not `pgx.ErrNoRows` it returns the zero `Book` and an "unable to query book"
error whose message ends with the cause's and which unwraps to the cause;
otherwise it returns the row, all ten fields, and no error. -/
theorem getBookByID_outcomes (env : Backend) (s : Store) (bookID : Int) :
    (env.fail 0 = none → s.selectBook bookID = none →
      (postgresDB.GetBookByID env (Conn.ofStore s) bookID).1 =
        (Book.zero, some (.errorString ("book with ID " ++ formatInt bookID ++ " not found")))) ∧
    (∀ e, env.fail 0 = some e → errorsIs e ErrNoRows = false →
      (postgresDB.GetBookByID env (Conn.ofStore s) bookID).1 =
        (Book.zero, some (.wrapError ("unable to query book: " ++ e.Error) e))) ∧
    (∀ book, env.fail 0 = none → s.selectBook bookID = some book →
      (postgresDB.GetBookByID env (Conn.ofStore s) bookID).1 = (book, none)) ∧
    (postgresDB.GetBookByID env (Conn.ofStore s) bookID).2.committed = s := by
  refine ⟨?_, ?_, ?_, ?_⟩
  · intro h0 hb
    simp [postgresDB.GetBookByID, Conn.QueryRowBook, Conn.ofStore, h0, hb, errorsIs, ErrNoRows,
      Errorf]
  · intro e h0 he
    simp [postgresDB.GetBookByID, Conn.QueryRowBook, Conn.ofStore, h0, he, ErrorfW]
  · intro book h0 hb
    simp [postgresDB.GetBookByID, Conn.QueryRowBook, Conn.ofStore, h0, hb]
  · cases h0 : env.fail 0 <;> cases hb : s.selectBook bookID <;>
      simp only [postgresDB.GetBookByID, Conn.QueryRowBook, Conn.ofStore, List.length_nil, h0,
        hb] <;>
      first
        | rfl
        | (split_ifs <;> rfl)

theorem getBookByID_outcomes_witness :
    (postgresDB.GetBookByID (okBackend 0 1) (Conn.ofStore shelf) 999).1 =
      (Book.zero, some (.errorString "book with ID 999 not found")) ∧
    (postgresDB.GetBookByID (failingBackend 0 (.errorString "connection reset"))
        (Conn.ofStore shelf) 1).1 =
      (Book.zero, some (.wrapError "unable to query book: connection reset"
        (.errorString "connection reset"))) ∧
    (postgresDB.GetBookByID (okBackend 0 1) (Conn.ofStore shelf) 1).1 = (sampleBook 1 5, none) :=
  ⟨(getBookByID_outcomes (okBackend 0 1) shelf 999).1 rfl (by decide),
   (getBookByID_outcomes (failingBackend 0 (.errorString "connection reset")) shelf 1).2.1
     (.errorString "connection reset") rfl (by decide),
   (getBookByID_outcomes (okBackend 0 1) shelf 1).2.2.1 (sampleBook 1 5) rfl (by decide)⟩

/-! ## The errors of the two protocols, step by step -/

/-- C24. `BorrowBook` returns no error if and only if the transaction begins,
the select finds a row with a stock other than zero, and the stock update, the
record insert and the commit succeed.  Otherwise it returns the error of the
first step that fails, in the order of the protocol, and makes no later call
but the deferred rollback: "failed to start transaction", "book not found"
(no row) or "failed to query book" (another failure of the select), "book is
not available", "failed to decrement stock", "failed to insert borrowing
record", "failed to commit transaction". -/
theorem borrowBook_first_failure (env : Backend) (s : Store) (book : NewBorrowingRecord) :
    ((postgresDB.BorrowBook env (Conn.ofStore s) book).1 = none ↔
      env.fail 0 = none ∧ env.fail 1 = none ∧
      (∃ stock, s.selectStock book.BookID = some stock ∧ stock ≠ 0) ∧
      env.fail 2 = none ∧ env.fail 3 = none ∧ env.fail 4 = none) ∧
    (∀ e, env.fail 0 = some e →
      postgresDB.BorrowBook env (Conn.ofStore s) book =
        (some (.wrapError ("failed to start transaction: " ++ e.Error) e),
         ⟨s, none, [.poolBeginTx { IsoLevel := .RepeatableRead }]⟩)) ∧
    (env.fail 0 = none → env.fail 1 = none → s.selectStock book.BookID = none →
      postgresDB.BorrowBook env (Conn.ofStore s) book =
        (some (.errorString "book not found"),
         ⟨s, none, [.poolBeginTx { IsoLevel := .RepeatableRead },
           .txQueryRow (.selectStockForUpdate book.BookID), .txRollback]⟩)) ∧
    (∀ e, env.fail 0 = none → env.fail 1 = some e → e ≠ ErrNoRows →
      postgresDB.BorrowBook env (Conn.ofStore s) book =
        (some (.wrapError ("failed to query book: " ++ e.Error) e),
         ⟨s, none, [.poolBeginTx { IsoLevel := .RepeatableRead },
           .txQueryRow (.selectStockForUpdate book.BookID), .txRollback]⟩)) ∧
    (env.fail 0 = none → env.fail 1 = none → s.selectStock book.BookID = some 0 →
      postgresDB.BorrowBook env (Conn.ofStore s) book =
        (some (.errorString "book is not available"),
         ⟨s, none, [.poolBeginTx { IsoLevel := .RepeatableRead },
           .txQueryRow (.selectStockForUpdate book.BookID), .txRollback]⟩)) ∧
    (∀ e stock, env.fail 0 = none → env.fail 1 = none →
      s.selectStock book.BookID = some stock → stock ≠ 0 → env.fail 2 = some e →
      postgresDB.BorrowBook env (Conn.ofStore s) book =
        (some (.wrapError ("failed to decrement stock: " ++ e.Error) e),
         ⟨s, none, [.poolBeginTx { IsoLevel := .RepeatableRead },
           .txQueryRow (.selectStockForUpdate book.BookID),
           .txExec (.updateStock (predInt stock) book.BookID), .txRollback]⟩)) ∧
    (∀ e stock, env.fail 0 = none → env.fail 1 = none →
      s.selectStock book.BookID = some stock → stock ≠ 0 → env.fail 2 = none →
      env.fail 3 = some e →
      postgresDB.BorrowBook env (Conn.ofStore s) book =
        (some (.wrapError ("failed to insert borrowing record: " ++ e.Error) e),
         ⟨s, none, [.poolBeginTx { IsoLevel := .RepeatableRead },
           .txQueryRow (.selectStockForUpdate book.BookID),
           .txExec (.updateStock (predInt stock) book.BookID),
           .txExec (.insertBorrowingRecord book.UserID book.BookID book.BorrowedAt
             (Time.Add book.BorrowedAt (3 * 24 * Hour))), .txRollback]⟩)) ∧
    (∀ e stock, env.fail 0 = none → env.fail 1 = none →
      s.selectStock book.BookID = some stock → stock ≠ 0 → env.fail 2 = none →
      env.fail 3 = none → env.fail 4 = some e →
      postgresDB.BorrowBook env (Conn.ofStore s) book =
        (some (.wrapError ("failed to commit transaction: " ++ e.Error) e),
         ⟨s, none, [.poolBeginTx { IsoLevel := .RepeatableRead },
           .txQueryRow (.selectStockForUpdate book.BookID),
           .txExec (.updateStock (predInt stock) book.BookID),
           .txExec (.insertBorrowingRecord book.UserID book.BookID book.BorrowedAt
             (Time.Add book.BorrowedAt (3 * 24 * Hour))), .txCommit, .txRollback]⟩)) := by
  refine ⟨?_, ?_, ?_, ?_, ?_, ?_, ?_, ?_⟩
  · rw [BorrowBook_eq]
    cases h0 : env.fail 0 <;> cases h1 : env.fail 1 <;>
      cases hs : s.selectStock book.BookID <;>
      cases h2 : env.fail 2 <;> cases h3 : env.fail 3 <;> cases h4 : env.fail 4 <;>
      simp <;> split_ifs <;> simp_all
  · intro e h0
    rw [BorrowBook_eq]
    simp [h0, ErrorfW]
  · intro h0 h1 hs
    rw [BorrowBook_eq]
    simp [h0, h1, hs, Errorf]
  · intro e h0 h1 hne
    rw [BorrowBook_eq]
    simp [h0, h1, hne, ErrorfW]
  · intro h0 h1 hs
    rw [BorrowBook_eq]
    simp [h0, h1, hs, Errorf]
  · intro e stock h0 h1 hs hne h2
    rw [BorrowBook_eq]
    simp [h0, h1, hs, hne, h2, ErrorfW]
  · intro e stock h0 h1 hs hne h2 h3
    rw [BorrowBook_eq]
    simp [h0, h1, hs, hne, h2, h3, ErrorfW]
  · intro e stock h0 h1 hs hne h2 h3 h4
    rw [BorrowBook_eq]
    simp [h0, h1, hs, hne, h2, h3, h4, ErrorfW]

theorem borrowBook_first_failure_witness :
    postgresDB.BorrowBook (failingBackend 2 (.errorString "update stock failed"))
        (Conn.ofStore shelf) (borrowOf 123 1 50) =
      (some (.wrapError "failed to decrement stock: update stock failed"
          (.errorString "update stock failed")),
       ⟨shelf, none, [.poolBeginTx { IsoLevel := .RepeatableRead },
         .txQueryRow (.selectStockForUpdate 1), .txExec (.updateStock 4 1), .txRollback]⟩) :=
  (borrowBook_first_failure (failingBackend 2 (.errorString "update stock failed")) shelf
    (borrowOf 123 1 50)).2.2.2.2.2.1 (.errorString "update stock failed") 5 rfl rfl
    (by decide) (by decide) rfl

/-- C25. `ReturnBook` returns no error if and only if the transaction begins,
the existence query succeeds and answers true, and the record update, the
stock increment and the commit succeed.  Otherwise it returns the error of the
first step that fails, in the order of the protocol, and makes no later call
but the deferred rollback: "failed to start transaction", "failed to check
borrowing record", "borrowing record not found or already returned", "failed
to update borrowing record", "failed to increment book stock", "failed to
commit transaction". -/
theorem returnBook_first_failure (env : Backend) (s : Store) (book : BorrowingRecord) :
    ((postgresDB.ReturnBook env (Conn.ofStore s) book).1 = none ↔
      env.fail 0 = none ∧ env.fail 1 = none ∧
      s.existsOpen book.UserID book.BookID = true ∧
      env.fail 2 = none ∧ env.fail 3 = none ∧ env.fail 4 = none) ∧
    (∀ e, env.fail 0 = some e →
      postgresDB.ReturnBook env (Conn.ofStore s) book =
        (some (.wrapError ("failed to start transaction: " ++ e.Error) e),
         ⟨s, none, [.poolBeginTx { IsoLevel := .RepeatableRead }]⟩)) ∧
    (∀ e, env.fail 0 = none → env.fail 1 = some e →
      postgresDB.ReturnBook env (Conn.ofStore s) book =
        (some (.wrapError ("failed to check borrowing record: " ++ e.Error) e),
         ⟨s, none, [.poolBeginTx { IsoLevel := .RepeatableRead },
           .txQueryRow (.existsOpenRecord book.UserID book.BookID), .txRollback]⟩)) ∧
    (env.fail 0 = none → env.fail 1 = none →
      s.existsOpen book.UserID book.BookID = false →
      postgresDB.ReturnBook env (Conn.ofStore s) book =
        (some (.errorString "borrowing record not found or already returned"),
         ⟨s, none, [.poolBeginTx { IsoLevel := .RepeatableRead },
           .txQueryRow (.existsOpenRecord book.UserID book.BookID), .txRollback]⟩)) ∧
    (∀ e, env.fail 0 = none → env.fail 1 = none →
      s.existsOpen book.UserID book.BookID = true → env.fail 2 = some e →
      postgresDB.ReturnBook env (Conn.ofStore s) book =
        (some (.wrapError ("failed to update borrowing record: " ++ e.Error) e),
         ⟨s, none, [.poolBeginTx { IsoLevel := .RepeatableRead },
           .txQueryRow (.existsOpenRecord book.UserID book.BookID),
           .txExec (.closeOpenRecords env.now book.UserID book.BookID), .txRollback]⟩)) ∧
    (∀ e, env.fail 0 = none → env.fail 1 = none →
      s.existsOpen book.UserID book.BookID = true → env.fail 2 = none →
      env.fail 3 = some e →
      postgresDB.ReturnBook env (Conn.ofStore s) book =
        (some (.wrapError ("failed to increment book stock: " ++ e.Error) e),
         ⟨s, none, [.poolBeginTx { IsoLevel := .RepeatableRead },
           .txQueryRow (.existsOpenRecord book.UserID book.BookID),
           .txExec (.closeOpenRecords env.now book.UserID book.BookID),
           .txExec (.incrementStock book.BookID), .txRollback]⟩)) ∧
    (∀ e, env.fail 0 = none → env.fail 1 = none →
      s.existsOpen book.UserID book.BookID = true → env.fail 2 = none →
      env.fail 3 = none → env.fail 4 = some e →
      postgresDB.ReturnBook env (Conn.ofStore s) book =
        (some (.wrapError ("failed to commit transaction: " ++ e.Error) e),
         ⟨s, none, [.poolBeginTx { IsoLevel := .RepeatableRead },
           .txQueryRow (.existsOpenRecord book.UserID book.BookID),
           .txExec (.closeOpenRecords env.now book.UserID book.BookID),
           .txExec (.incrementStock book.BookID), .txCommit, .txRollback]⟩)) := by
  refine ⟨?_, ?_, ?_, ?_, ?_, ?_, ?_⟩
  · rw [ReturnBook_eq]
    cases h0 : env.fail 0 <;> cases h1 : env.fail 1 <;>
      cases hs : s.existsOpen book.UserID book.BookID <;>
      cases h2 : env.fail 2 <;> cases h3 : env.fail 3 <;> cases h4 : env.fail 4 <;>
      simp
  · intro e h0
    rw [ReturnBook_eq]
    simp [h0, ErrorfW]
  · intro e h0 h1
    rw [ReturnBook_eq]
    simp [h0, h1, ErrorfW]
  · intro h0 h1 hs
    rw [ReturnBook_eq]
    simp [h0, h1, hs, Errorf]
  · intro e h0 h1 hs h2
    rw [ReturnBook_eq]
    simp [h0, h1, hs, h2, ErrorfW]
  · intro e h0 h1 hs h2 h3
    rw [ReturnBook_eq]
    simp [h0, h1, hs, h2, h3, ErrorfW]
  · intro e h0 h1 hs h2 h3 h4
    rw [ReturnBook_eq]
    simp [h0, h1, hs, h2, h3, h4, ErrorfW]

theorem returnBook_first_failure_witness :
    postgresDB.ReturnBook (failingBackend 3 (.errorString "stock update failed"))
        (Conn.ofStore twoOpen) (returnOf 7 1) =
      (some (.wrapError "failed to increment book stock: stock update failed"
          (.errorString "stock update failed")),
       ⟨twoOpen, none, [.poolBeginTx { IsoLevel := .RepeatableRead },
         .txQueryRow (.existsOpenRecord 7 1), .txExec (.closeOpenRecords 0 7 1),
         .txExec (.incrementStock 1), .txRollback]⟩) :=
  (returnBook_first_failure (failingBackend 3 (.errorString "stock update failed")) twoOpen
    (returnOf 7 1)).2.2.2.2.2.1 (.errorString "stock update failed") rfl rfl (by decide) rfl rfl

/-! ## A negative stock, and the frame of a return -/

/-- C28, as stated, fails: the stock `math.MinInt64` is negative, and a
`BorrowBook` on it whose statements all succeed inserts an open record but
commits the stock `math.MaxInt64`, not that stock less one: the `stock - 1`
of the 64-bit `int` wraps around. -/
theorem negative_min_stock_wraps_to_max :
    bottomed.selectStock 1 = some MinInt64 ∧ MinInt64 < 0 ∧
    (postgresDB.BorrowBook (okBackend 0 9) (Conn.ofStore bottomed) (borrowOf 7 1 100)).1 = none ∧
    (postgresDB.BorrowBook (okBackend 0 9) (Conn.ofStore bottomed)
      (borrowOf 7 1 100)).2.committed.openFor 7 1 = 1 ∧
    (postgresDB.BorrowBook (okBackend 0 9) (Conn.ofStore bottomed)
      (borrowOf 7 1 100)).2.committed.selectStock 1 = some MaxInt64 ∧
    MaxInt64 ≠ MinInt64 - 1 := by
  decide

/-- C28, amended. `BorrowBook` refuses for lack of stock only at stock zero:
whenever it returns "book is not available" the selected stock is 0, and for a
row whose stock is negative and is not `math.MinInt64` a `BorrowBook` whose
statements all succeed returns no error, commits that stock less one and
inserts an open record. -/
theorem borrowBook_negative_stock (env : Backend) (s : Store) (book : NewBorrowingRecord) :
    ((postgresDB.BorrowBook env (Conn.ofStore s) book).1 =
        some (.errorString "book is not available") →
      s.selectStock book.BookID = some 0) ∧
    (∀ stock, env.healthy → s.selectStock book.BookID = some stock → stock < 0 →
      stock ≠ MinInt64 →
      (postgresDB.BorrowBook env (Conn.ofStore s) book).1 = none ∧
      (postgresDB.BorrowBook env (Conn.ofStore s) book).2.committed.selectStock book.BookID =
        some (stock - 1) ∧
      (postgresDB.BorrowBook env (Conn.ofStore s) book).2.committed.borrowing_records =
        s.borrowing_records ++
          [{ id := env.nextID, book_id := book.BookID, user_id := book.UserID,
             borrowed_at := book.BorrowedAt, due_date := book.BorrowedAt + 72 * Hour,
             returned_at := none }]) := by
  constructor
  · rw [BorrowBook_eq]
    cases h0 : env.fail 0 <;> cases h1 : env.fail 1 <;>
      cases hs : s.selectStock book.BookID <;>
      cases h2 : env.fail 2 <;> cases h3 : env.fail 3 <;> cases h4 : env.fail 4 <;>
      simp [ErrorfW, Errorf] <;> split_ifs <;> simp_all
  · intro stock henv hrow hneg hmin
    have hne : stock ≠ 0 := by omega
    have hok := BorrowBook_runs env s book stock (henv 0) (henv 1) (henv 2) (henv 3) (henv 4)
      hrow hne
    obtain ⟨stock2, hrow2, -, hc⟩ := BorrowBook_ok env s book hok
    have hs : stock2 = stock := Option.some.inj (hrow2.symm.trans hrow)
    subst hs
    refine ⟨hok, ?_, ?_⟩
    · rw [hc, selectStock_borrowed, if_pos rfl, hrow, predInt_eq stock2 hmin]
      rfl
    · rw [hc]
      simp [borrowed, Time.Add]

theorem borrowBook_negative_stock_witness :
    (postgresDB.BorrowBook (okBackend 0 1) (Conn.ofStore overdrawn) (borrowOf 7 1 50)).1 = none ∧
    (postgresDB.BorrowBook (okBackend 0 1) (Conn.ofStore overdrawn)
      (borrowOf 7 1 50)).2.committed.selectStock 1 = some (-2 - 1) :=
  have h := (borrowBook_negative_stock (okBackend 0 1) overdrawn (borrowOf 7 1 50)).2 (-2)
    (fun _ => rfl) (by decide) (by decide) (by decide)
  ⟨h.1, h.2.1⟩

/-- C29. A successful `ReturnBook` changes nothing but the return instant of
the open records of its user and book and the stock of its book: every record
that is not an open record of that user and book is unchanged, the others
differ from what they were in their return instant only, every row of another
book is unchanged, the rows of the book differ in their stock only, and no
row is added to or taken from either table. -/
theorem returnBook_frame (env : Backend) (s : Store) (back : BorrowingRecord)
    (hok : (postgresDB.ReturnBook env (Conn.ofStore s) back).1 = none) :
    List.Forall₂
      (fun r r2 => (r.isOpenFor back.UserID back.BookID = false → r2 = r) ∧
        r2 = { r with returned_at := r2.returned_at })
      s.borrowing_records
      (postgresDB.ReturnBook env (Conn.ofStore s) back).2.committed.borrowing_records ∧
    List.Forall₂
      (fun b b2 => (b.ID ≠ back.BookID → b2 = b) ∧ b2 = { b with Stock := b2.Stock })
      s.books
      (postgresDB.ReturnBook env (Conn.ofStore s) back).2.committed.books := by
  obtain ⟨-, hc⟩ := ReturnBook_ok env s back hok
  rw [hc]
  simp only [returned]
  constructor
  · rw [List.forall₂_map_right_iff, List.forall₂_same]
    intro r _
    by_cases h : r.isOpenFor back.UserID back.BookID = true
    · rw [if_pos h]
      exact ⟨fun hf => absurd h (by rw [hf]; simp), rfl⟩
    · rw [if_neg h]
      exact ⟨fun _ => rfl, rfl⟩
  · rw [List.forall₂_map_right_iff, List.forall₂_same]
    intro b _
    by_cases h : b.ID = back.BookID
    · rw [if_pos h]
      exact ⟨fun hf => absurd h hf, rfl⟩
    · rw [if_neg h]
      exact ⟨fun _ => rfl, rfl⟩

theorem returnBook_frame_witness :
    List.Forall₂
      (fun r r2 => (r.isOpenFor 7 1 = false → r2 = r) ∧
        r2 = { r with returned_at := r2.returned_at })
      twoOpen.borrowing_records
      (postgresDB.ReturnBook (okBackend 500 1) (Conn.ofStore twoOpen)
        (returnOf 7 1)).2.committed.borrowing_records ∧
    List.Forall₂
      (fun b b2 => (b.ID ≠ 1 → b2 = b) ∧ b2 = { b with Stock := b2.Stock })
      twoOpen.books
      (postgresDB.ReturnBook (okBackend 500 1) (Conn.ofStore twoOpen)
        (returnOf 7 1)).2.committed.books :=
  returnBook_frame (okBackend 500 1) twoOpen (returnOf 7 1) (by decide)

/-! ## The in-memory store -/

/-- The counter of the in-memory store is the length of its record list. -/
theorem memoryDB_counter (calls : List DatabaseCall) (db db2 : memoryDB)
    (hinv : db.idCounter = db.records.length) (hrun : memoryDB.run db calls = some db2) :
    db2.idCounter = db2.records.length := by
  induction calls generalizing db with
  | nil =>
    simp only [memoryDB.run, Option.some.injEq] at hrun
    rw [← hrun]
    exact hinv
  | cons c rest ih =>
    simp only [memoryDB.run] at hrun
    cases hc : db.call c with
    | none => simp [hc] at hrun
    | some db1 =>
      rw [hc] at hrun
      refine ih db1 ?_ hrun
      cases c <;>
        simp only [memoryDB.call, memoryDB.CreateBook, memoryDB.UpdateBook, memoryDB.DeleteBook,
          memoryDB.BorrowBook, memoryDB.ReturnBook, Option.some.injEq, Option.map_eq_some'] at hc
      case CreateBook newBook =>
        rw [← hc]
        simp [hinv]
      case GetBookByID bookID =>
        obtain ⟨_, _, rfl⟩ := hc
        exact hinv
      all_goals (rw [← hc]; exact hinv)

/-- In every state reached from `newMemoryDB` the index expression of
`GetBookByID` is out of range. -/
theorem memoryDB_getBookByID_panics (calls : List DatabaseCall) (db : memoryDB)
    (hrun : memoryDB.run newMemoryDB calls = some db) (bookID : Int) :
    db.GetBookByID bookID = none := by
  have h := memoryDB_counter calls newMemoryDB db rfl hrun
  simp [memoryDB.GetBookByID, sliceIndex, h]

/-- C30 fails on the code: `GetBookByID` of the in-memory store indexes its
record list at `idCounter`, which is the length of the list: on the fresh
store and after any number of `CreateBook` calls the index is out of range and
the call panics, whatever the id asked for. -/
theorem memoryDB_getBookByID_out_of_range :
    newMemoryDB.GetBookByID 0 = none ∧
    (newMemoryDB.CreateBook
      { Title := "Dune", ISBN := "", AuthorID := 0, CategoryID := 0,
        Stock := 0, PublishedDate := 0, Description := "" }).2.GetBookByID 0 = none ∧
    ∀ (calls : List DatabaseCall) (db : memoryDB) (bookID : Int),
      memoryDB.run newMemoryDB calls = some db → db.GetBookByID bookID = none :=
  ⟨by decide, by decide, fun calls db bookID h => memoryDB_getBookByID_panics calls db h bookID⟩

/-! ## Choosing the store -/

/-- C23. For every database URL, `NewDatabase` (of the book service and of
the author service alike) returns the in-memory stub and no error when the URL
is empty; when the URL starts with "postgres://" it returns the PostgreSQL
store, or no store and an error wrapping the "unable to create connection
pool" error that carries the message of the pool's failure; otherwise it
returns no store and the error "unsupported database URL scheme: <URL>". -/
theorem newDatabase_dispatch (poolNew : String → Option GoError) (databaseURL : String) :
    (databaseURL = "" →
      NewDatabase poolNew databaseURL = (some (.memory newMemoryDB), none) ∧
      AuthorDB.NewDatabase poolNew databaseURL = (some .memory, none)) ∧
    (databaseURL ≠ "" → HasPrefix databaseURL "postgres://" = true →
      poolNew databaseURL = none →
      NewDatabase poolNew databaseURL = (some (.postgres databaseURL), none) ∧
      AuthorDB.NewDatabase poolNew databaseURL = (some (.postgres databaseURL), none)) ∧
    (∀ e, databaseURL ≠ "" → HasPrefix databaseURL "postgres://" = true →
      poolNew databaseURL = some e →
      NewDatabase poolNew databaseURL =
        (none, some (.wrapError
          ("failed to initialize PostgreSQL database connection: " ++
            ("unable to create connection pool: " ++ e.Error))
          (.errorString ("unable to create connection pool: " ++ e.Error)))) ∧
      AuthorDB.NewDatabase poolNew databaseURL =
        (none, some (.wrapError
          ("failed to initialize PostgreSQL database connection: " ++
            ("unable to create connection pool: " ++ e.Error))
          (.errorString ("unable to create connection pool: " ++ e.Error))))) ∧
    (databaseURL ≠ "" → HasPrefix databaseURL "postgres://" = false →
      NewDatabase poolNew databaseURL =
        (none, some (.errorString ("unsupported database URL scheme: " ++ databaseURL))) ∧
      AuthorDB.NewDatabase poolNew databaseURL =
        (none, some (.errorString ("unsupported database URL scheme: " ++ databaseURL)))) := by
  refine ⟨?_, ?_, ?_, ?_⟩
  · intro h
    simp [NewDatabase, AuthorDB.NewDatabase, h]
  · intro h hp hn
    simp [NewDatabase, AuthorDB.NewDatabase, newPostgresDB, AuthorDB.newPostgresDB, h, hp, hn]
  · intro e h hp hn
    simp [NewDatabase, AuthorDB.NewDatabase, newPostgresDB, AuthorDB.newPostgresDB, h, hp, hn,
      ErrorfW, Errorf, GoError.Error]
  · intro h hp
    simp [NewDatabase, AuthorDB.NewDatabase, h, hp, Errorf]

theorem newDatabase_dispatch_witness :
    NewDatabase (fun _ => some (.errorString "dial error")) "postgres://library" =
      (none, some (.wrapError
        "failed to initialize PostgreSQL database connection: unable to create connection pool: dial error"
        (.errorString "unable to create connection pool: dial error"))) ∧
    NewDatabase (fun _ => none) "mysql://library" =
      (none, some (.errorString "unsupported database URL scheme: mysql://library")) :=
  ⟨((newDatabase_dispatch (fun _ => some (.errorString "dial error")) "postgres://library").2.2.1
      (.errorString "dial error") (by decide) (by decide) rfl).1,
   ((newDatabase_dispatch (fun _ => none) "mysql://library").2.2.2 (by decide) (by decide)).1⟩

end BookDB

namespace Services

open Go BookDB

/-! ## The service layer -/

/-- C16. For every transport book, `SaveBook` makes exactly one call on the
store: `CreateBook`, with a `NewBook` carrying the book's title, ISBN, author,
category, publication date and description and the default stock 12; the
book's id plays no part.  On any store the state after `SaveBook` is the
state after that one `CreateBook`, and `SaveBook` fails exactly when it
fails. -/
theorem saveBook_creates_with_stock_12 {σ : Type} (db : Database σ) (st : σ)
    (book : Domain.Book) :
    (booksService.SaveBook { db := db } st book).2 =
      (db.CreateBook st
        { Title := book.Title, ISBN := book.ISBN, AuthorID := book.AuthorID,
          CategoryID := book.CategoryID, Stock := 12, PublishedDate := book.PublishDate,
          Description := book.Description }).2 ∧
    ((booksService.SaveBook { db := db } st book).1 = none ↔
      (db.CreateBook st
        { Title := book.Title, ISBN := book.ISBN, AuthorID := book.AuthorID,
          CategoryID := book.CategoryID, Stock := 12, PublishedDate := book.PublishDate,
          Description := book.Description }).1 = none) ∧
    (∀ books record err,
      (booksService.SaveBook { db := recordingDB books record err } [] book).2 =
        [DatabaseCall.CreateBook
          { Title := book.Title, ISBN := book.ISBN, AuthorID := book.AuthorID,
            CategoryID := book.CategoryID, Stock := 12, PublishedDate := book.PublishDate,
            Description := book.Description }]) ∧
    (∀ id, booksService.SaveBook { db := db } st { book with ID := id } =
      booksService.SaveBook { db := db } st book) := by
  refine ⟨?_, ?_, ?_, ?_⟩
  · simp only [booksService.SaveBook]
    split <;> simp_all
  · simp only [booksService.SaveBook]
    split <;> simp_all
  · intro books record err
    cases err <;> rfl
  · intro id
    rfl

/-- C17 fails on the code: for the transport book carrying only the title
"Title", `SaveBook` calls `CreateBook` with a `NewBook` whose stock is 12, not
with `NewBook{Title: "Title"}` (stock zero) as `TestSaveBook` expects. -/
theorem saveBook_title_only_has_stock_12 :
    (booksService.SaveBook { db := recordingDB [] Book.zero none } []
        { Domain.Book.zero with Title := "Title" }).2 =
      [DatabaseCall.CreateBook
        { Title := "Title", ISBN := "", AuthorID := 0, CategoryID := 0, Stock := 12,
          PublishedDate := 0, Description := "" }] ∧
    (booksService.SaveBook { db := recordingDB [] Book.zero none } []
        { Domain.Book.zero with Title := "Title" }).2 ≠
      [DatabaseCall.CreateBook
        { Title := "Title", ISBN := "", AuthorID := 0, CategoryID := 0, Stock := 0,
          PublishedDate := 0, Description := "" }] := by
  decide

/-- C18 fails on the code: for a transport book with category 3 and a
publication date, `UpdateBook` hands the store a `Book` with the same id,
title, ISBN, author and description but category 0 and the zero date. -/
theorem updateBook_drops_category_and_date :
    (booksService.UpdateBook { db := recordingDB [] Book.zero none } [] sampleUpdate).2 =
      [DatabaseCall.UpdateBook
        { ID := 1, Title := "Title", ISBN := "", AuthorID := 1, CategoryID := 0, Stock := 0,
          PublishedDate := 0, Description := "empty desc", CreatedAt := 0, UpdatedAt := 0 }] ∧
    sampleUpdate.CategoryID = 3 ∧ sampleUpdate.PublishDate = 86400 := by
  decide

/-- C19 fails on the code: when the store fails with an error, `GetBook`
returns that very error, with no context string and nothing to unwrap, where
`GetBooks`, `SaveBook`, `DeleteBook` and `UpdateBook` return it wrapped. -/
theorem getBook_returns_store_error_unwrapped :
    (booksService.GetBook { db := recordingDB [] Book.zero (some (.errorString "boom")) } []
        1).1 = (Domain.Book.zero, some (.errorString "boom")) ∧
    (GoError.errorString "boom").Unwrap = none ∧
    (booksService.GetBooks { db := recordingDB [] Book.zero (some (.errorString "boom")) }
        []).1.2 = some (.wrapError "failed to load books: boom" (.errorString "boom")) ∧
    (booksService.SaveBook { db := recordingDB [] Book.zero (some (.errorString "boom")) } []
        Domain.Book.zero).1 = some (.wrapError "failed to save book: boom" (.errorString "boom")) ∧
    (booksService.DeleteBook { db := recordingDB [] Book.zero (some (.errorString "boom")) } []
        1).1 = some (.wrapError "failed to delete book: boom" (.errorString "boom")) ∧
    (booksService.UpdateBook { db := recordingDB [] Book.zero (some (.errorString "boom")) } []
        Domain.Book.zero).1 =
      some (.wrapError "failed to update book: boom" (.errorString "boom")) := by
  decide

/-- Appending one mapped element per record builds the mapped list. -/
theorem foldl_append_singleton {α β : Type} (f : α → β) (l : List α) (init : List β) :
    l.foldl (fun acc a => acc ++ [f a]) init = init ++ l.map f := by
  induction l generalizing init with
  | nil => simp
  | cons a l ih => simp [ih]

/-- C26. When the store returns a list of records, `GetBooks` returns a list
of the same length and order whose elements carry the records' id, title,
ISBN, author, category, publication date and description; the stock and the
two audit instants of the records play no part; `GetBook` maps the one
record it reads in the same way. -/
theorem getBooks_maps_records {σ : Type} (db : Database σ) (st st1 : σ)
    (records : List BookDB.Book) (h : db.LoadAllBooks st = ((records, none), st1)) :
    booksService.GetBooks { db := db } st =
      ((records.map fun record =>
          { ID := record.ID, Title := record.Title, ISBN := record.ISBN,
            AuthorID := record.AuthorID, CategoryID := record.CategoryID,
            PublishDate := record.PublishedDate, Description := record.Description }, none),
        st1) ∧
    (booksService.GetBooks { db := db } st).1.1.length = records.length ∧
    (∀ (stock : BookDB.Book → Int) (created updated : BookDB.Book → Time),
      (booksService.GetBooks
        { db := recordingDB (records.map fun r =>
            { r with Stock := stock r, CreatedAt := created r, UpdatedAt := updated r })
            Book.zero none } []).1 =
      (booksService.GetBooks { db := recordingDB records Book.zero none } []).1) ∧
    (∀ (id : Int) (record : BookDB.Book) (st2 : σ),
      db.GetBookByID st id = ((record, none), st2) →
      booksService.GetBook { db := db } st id =
        (({ ID := record.ID, Title := record.Title, ISBN := record.ISBN,
            AuthorID := record.AuthorID, CategoryID := record.CategoryID,
            PublishDate := record.PublishedDate, Description := record.Description }, none),
          st2)) := by
  have hmain : booksService.GetBooks { db := db } st =
      ((records.map fun record : BookDB.Book =>
          Domain.Book.mk record.ID record.Title record.ISBN record.AuthorID record.CategoryID
            record.PublishedDate record.Description, none),
        st1) := by
    simp only [booksService.GetBooks, h, foldl_append_singleton, List.nil_append]
  refine ⟨hmain, ?_, ?_, ?_⟩
  · rw [hmain]
    simp
  · intro stock created updated
    simp only [booksService.GetBooks, recordingDB, foldl_append_singleton, List.nil_append,
      List.map_map]
    rfl
  · intro id record st2 hg
    simp only [booksService.GetBook, hg]

theorem getBooks_maps_records_witness :
    booksService.GetBooks { db := recordingDB [sampleBook 1 5, sampleBook 2 0] Book.zero none }
        [] =
      (([{ ID := 1, Title := "Dune", ISBN := "9780441013593", AuthorID := 1, CategoryID := 1,
           PublishDate := 0, Description := "" },
         { ID := 2, Title := "Dune", ISBN := "9780441013593", AuthorID := 1, CategoryID := 1,
           PublishDate := 0, Description := "" }], none), [DatabaseCall.LoadAllBooks]) :=
  (getBooks_maps_records (recordingDB [sampleBook 1 5, sampleBook 2 0] Book.zero none) []
    [DatabaseCall.LoadAllBooks] [sampleBook 1 5, sampleBook 2 0] rfl).1

/-- The stock a `SELECT` finds after the `UPDATE` of `UpdateBook`. -/
theorem selectStock_updateBook (l : List BookDB.Book) (book : BookDB.Book) :
    ((l.map fun b =>
        if b.ID = book.ID then
          { b with Title := book.Title, ISBN := book.ISBN, AuthorID := book.AuthorID,
                   CategoryID := book.CategoryID, Stock := book.Stock,
                   PublishedDate := book.PublishedDate, Description := book.Description }
        else b).find? fun b => decide (b.ID = book.ID)).map BookDB.Book.Stock =
      (l.find? fun b => decide (b.ID = book.ID)).map fun _ => book.Stock := by
  induction l with
  | nil => simp
  | cons b l ih =>
    by_cases hb : b.ID = book.ID <;> simp_all [List.find?_cons]

/-- C27. The `Book` that the service's `UpdateBook` hands to the store always
has stock 0, so after a successful update through the service on the
PostgreSQL store every row of the updated book has stock 0, whatever its
stock was, and the borrowing records (the open ones included) are as they
were. -/
theorem updateBook_zeroes_stock (env : Backend) (s : Store) (book : Domain.Book) :
    (∀ books record err,
      ∃ dbBook : BookDB.Book,
        (booksService.UpdateBook { db := recordingDB books record err } [] book).2 =
          [DatabaseCall.UpdateBook dbBook] ∧
        dbBook.ID = book.ID ∧ dbBook.Stock = 0) ∧
    ((booksService.UpdateBook { db := postgresDB.database env } (Conn.ofStore s) book).1 = none →
      (∀ row ∈ (booksService.UpdateBook { db := postgresDB.database env } (Conn.ofStore s)
          book).2.committed.books, row.ID = book.ID → row.Stock = 0) ∧
      (booksService.UpdateBook { db := postgresDB.database env } (Conn.ofStore s)
          book).2.committed.selectStock book.ID = (s.selectStock book.ID).map (fun _ => 0) ∧
      (booksService.UpdateBook { db := postgresDB.database env } (Conn.ofStore s)
          book).2.committed.borrowing_records = s.borrowing_records) := by
  constructor
  · intro books record err
    cases err <;> exact ⟨_, rfl, rfl, rfl⟩
  · intro hok
    cases h0 : env.fail 0 with
    | some e =>
      simp [booksService.UpdateBook, postgresDB.database, postgresDB.UpdateBook, Conn.Exec,
        Conn.ofStore, h0] at hok
    | none =>
      have hc : (booksService.UpdateBook { db := postgresDB.database env } (Conn.ofStore s)
          book).2.committed =
          Sql.run env s (.updateBook
            { Title := book.Title, AuthorID := book.AuthorID, ISBN := book.ISBN,
              Description := book.Description, ID := book.ID,
              CategoryID := 0, Stock := 0, PublishedDate := 0, CreatedAt := 0,
              UpdatedAt := 0 }) := by
        simp [booksService.UpdateBook, postgresDB.database, postgresDB.UpdateBook, Conn.Exec,
          Conn.ofStore, h0]
      rw [hc]
      refine ⟨?_, ?_, rfl⟩
      · intro row hrow hid
        simp only [Sql.run, List.mem_map] at hrow
        obtain ⟨b0, -, rfl⟩ := hrow
        by_cases hb : b0.ID = book.ID
        · simp [hb]
        · rw [if_neg hb] at hid
          exact absurd hid hb
      · have hsel := selectStock_updateBook s.books
          ⟨book.ID, book.Title, book.ISBN, book.AuthorID, 0, 0, 0, book.Description, 0, 0⟩
        simpa [Store.selectStock, Sql.run] using hsel

theorem updateBook_zeroes_stock_witness :
    (booksService.UpdateBook { db := postgresDB.database (okBackend 0 1) } (Conn.ofStore twoOpen)
        sampleUpdate).1 = none ∧
    twoOpen.selectStock 1 = some 3 ∧ twoOpen.openRecords 1 = 2 ∧
    (booksService.UpdateBook { db := postgresDB.database (okBackend 0 1) } (Conn.ofStore twoOpen)
        sampleUpdate).2.committed.selectStock 1 = some 0 :=
  have h := (updateBook_zeroes_stock (okBackend 0 1) twoOpen sampleUpdate).2 (by decide)
  ⟨by decide, by decide, by decide, h.2.1⟩

end Services

namespace Handlers

open Go Services

/-! ## Validation in the handlers -/

/-- C20. For every parsed body and every current instant, `AddBook` calls
`SaveBook` (once, with the parsed book) if and only if the title is not empty,
the publication date is not the zero time and is not after the current
instant; otherwise it answers 400 without calling the service, with the
message of the first check that fails, in the order title, zero date, future
date. -/
theorem addBook_validates {σ : Type} (service : BooksService σ) (st : σ)
    (params : String → String) (book : Domain.Book) (now : Time) :
    (∀ err, (AddBook (recordingService err) []
        { Params := params, BodyParser := .ok book, Now := now }).2 =
      if book.Title ≠ "" ∧ book.PublishDate ≠ 0 ∧ ¬ now < book.PublishDate then
        [ServiceCall.SaveBook book]
      else []) ∧
    (book.Title ≠ "" ∧ book.PublishDate ≠ 0 ∧ ¬ now < book.PublishDate →
      (AddBook service st { Params := params, BodyParser := .ok book, Now := now }).2 =
        (service.SaveBook st book).2 ∧
      (AddBook service st { Params := params, BodyParser := .ok book, Now := now }).1 =
        if (service.SaveBook st book).1 = none then SendStatus 201
        else sendError 500 "internal error") ∧
    (book.Title = "" →
      AddBook service st { Params := params, BodyParser := .ok book, Now := now } =
        (sendError 400 "title is required", st)) ∧
    (book.Title ≠ "" → book.PublishDate = 0 →
      AddBook service st { Params := params, BodyParser := .ok book, Now := now } =
        (sendError 400 "published date is required", st)) ∧
    (book.Title ≠ "" → book.PublishDate ≠ 0 → now < book.PublishDate →
      AddBook service st { Params := params, BodyParser := .ok book, Now := now } =
        (sendError 400 "published date cannot be in the future", st)) := by
  refine ⟨?_, ?_, ?_, ?_, ?_⟩
  · intro err
    by_cases ht : book.Title = "" <;> by_cases hz : book.PublishDate = 0 <;>
      by_cases hf : now < book.PublishDate <;> cases err <;>
      simp [AddBook, recordingService, Time.IsZero, Time.After, ht, hz, hf]
  · rintro ⟨ht, hz, hf⟩
    simp only [AddBook, Time.IsZero, Time.After, ht, hz, hf, decide_False, if_false,
      Bool.false_eq_true]
    cases hr : service.SaveBook st book with
    | mk e st1 => cases e <;> simp [StatusCreated, StatusInternalServerError]
  · intro ht
    simp [AddBook, ht, StatusBadRequest]
  · intro ht hz
    simp [AddBook, ht, hz, Time.IsZero, StatusBadRequest]
  · intro ht hz hf
    simp [AddBook, ht, hz, hf, Time.IsZero, Time.After, StatusBadRequest]

theorem addBook_validates_witness :
    AddBook (recordingService none) []
        (requestOf { Domain.Book.zero with Title := "Dune", PublishDate := 100 } 500) =
      (SendStatus 201, [ServiceCall.SaveBook
        { Domain.Book.zero with Title := "Dune", PublishDate := 100 }]) ∧
    AddBook (recordingService none) []
        (requestOf { Domain.Book.zero with Title := "Dune", PublishDate := 900 } 500) =
      (sendError 400 "published date cannot be in the future", []) :=
  ⟨by decide,
   (addBook_validates (recordingService none) [] (fun _ => "")
      { Domain.Book.zero with Title := "Dune", PublishDate := 900 } 500).2.2.2.2
      (by decide) (by decide) (by decide)⟩

/-- C21 fails on the code: for the id parameter "abc", which is not a base-10
integer, `strconv.Atoi` gives 0 and an error, and `GetBook` calls the service
with the id 0 and answers 200 (or 500 when the service fails) instead of
answering 400 without calling the service; for the parameter "42" it calls
the service with 42.  For every request the service is called with the value
`Atoi` returns and the answer is never 400. -/
theorem getBook_ignores_parse_error :
    (Atoi "abc").1 = 0 ∧ (Atoi "abc").2 ≠ none ∧
    GetBook (recordingService none) [] (requestFor "abc") =
      ({ Status := 200, Body := .book Domain.Book.zero }, [ServiceCall.GetBook 0]) ∧
    GetBook (recordingService (some (.errorString "book with ID 0 not found"))) []
        (requestFor "abc") =
      (sendError 500 "internal error", [ServiceCall.GetBook 0]) ∧
    GetBook (recordingService none) [] (requestFor "42") =
      ({ Status := 200, Body := .book Domain.Book.zero }, [ServiceCall.GetBook 42]) ∧
    (∀ (err : Option GoError) (c : Ctx),
      (GetBook (recordingService err) [] c).2 = [ServiceCall.GetBook (Atoi (c.Params "id")).1] ∧
      (GetBook (recordingService err) [] c).1.Status ≠ 400) := by
  refine ⟨by decide, by decide, by decide, by decide, by decide, ?_⟩
  intro err c
  cases err <;> simp [GetBook, recordingService, sendError, StatusInternalServerError, StatusOK]

end Handlers

namespace AuthorDB

open Go

/-! ## The statement of `ListAuthor` -/

/-- C22. `ListAuthor` makes one `pool.Query` call.  Its statement has the
condition on the first name if and only if the filter's first name is not
empty and the condition on the last name if and only if the filter's last
name is not empty, joined by " OR " (no `WHERE` when both are empty), and
ends with the `ORDER BY first_name LIMIT OFFSET` clause; its arguments are the
lower-cased filter values between percent signs, first name before last name,
then the limit and the offset; the placeholders are numbered from 1 in the
order of the arguments. -/
theorem listAuthor_statement (env : Backend) (pool : List QueryCall) (filter : Author)
    (limit offset : Int) :
    (postgresDB.ListAuthor env pool filter limit offset).2 =
      pool ++ [{ sql := (postgresDB.ListAuthor.statement env.ToLower filter limit offset).1,
                 args := (postgresDB.ListAuthor.statement env.ToLower filter limit offset).2 }] ∧
    (filter.FirstName = "" → filter.LastName = "" →
      postgresDB.ListAuthor.statement env.ToLower filter limit offset =
        ("\n        SELECT author_id, first_name, last_name, birth_date, nationality, created_at, updated_at\n        FROM authors\n     ORDER BY first_name LIMIT $1 OFFSET $2",
         [.int limit, .int offset])) ∧
    (filter.FirstName ≠ "" → filter.LastName = "" →
      postgresDB.ListAuthor.statement env.ToLower filter limit offset =
        ("\n        SELECT author_id, first_name, last_name, birth_date, nationality, created_at, updated_at\n        FROM authors\n     WHERE LOWER(first_name) LIKE $1 ORDER BY first_name LIMIT $2 OFFSET $3",
         [.text ("%" ++ env.ToLower filter.FirstName ++ "%"), .int limit, .int offset])) ∧
    (filter.FirstName = "" → filter.LastName ≠ "" →
      postgresDB.ListAuthor.statement env.ToLower filter limit offset =
        ("\n        SELECT author_id, first_name, last_name, birth_date, nationality, created_at, updated_at\n        FROM authors\n     WHERE LOWER(last_name) LIKE $1 ORDER BY first_name LIMIT $2 OFFSET $3",
         [.text ("%" ++ env.ToLower filter.LastName ++ "%"), .int limit, .int offset])) ∧
    (filter.FirstName ≠ "" → filter.LastName ≠ "" →
      postgresDB.ListAuthor.statement env.ToLower filter limit offset =
        ("\n        SELECT author_id, first_name, last_name, birth_date, nationality, created_at, updated_at\n        FROM authors\n     WHERE LOWER(first_name) LIKE $1 OR LOWER(last_name) LIKE $2 ORDER BY first_name LIMIT $3 OFFSET $4",
         [.text ("%" ++ env.ToLower filter.FirstName ++ "%"),
          .text ("%" ++ env.ToLower filter.LastName ++ "%"), .int limit, .int offset])) := by
  refine ⟨?_, ?_, ?_, ?_, ?_⟩
  · simp only [postgresDB.ListAuthor]
    cases env.queryErr with
    | some e => rfl
    | none =>
      cases postgresDB.ListAuthor.scan env.rows [] with
      | error e => rfl
      | ok authors => cases env.rowsErr <;> rfl
  · intro h1 h2
    simp only [postgresDB.ListAuthor.statement, h1, h2, ne_eq, not_true_eq_false, if_false,
      List.nil_append, List.length_nil, List.length_cons, gt_iff_lt, lt_self_iff_false,
      Prod.mk.injEq, and_true]
    rfl
  · intro h1 h2
    simp only [postgresDB.ListAuthor.statement, h1, h2, ne_eq, not_true_eq_false,
      not_false_eq_true, if_true, if_false, List.nil_append, List.length_nil, List.length_cons,
      List.length_singleton, gt_iff_lt, Nat.lt_one_iff, List.singleton_append, Prod.mk.injEq,
      and_true, zero_add, Nat.zero_lt_one, Nat.lt_add_one]
    rfl
  · intro h1 h2
    simp only [postgresDB.ListAuthor.statement, h1, h2, ne_eq, not_true_eq_false,
      not_false_eq_true, if_true, if_false, List.nil_append, List.length_nil, List.length_cons,
      List.length_singleton, gt_iff_lt, Nat.lt_one_iff, List.singleton_append, Prod.mk.injEq,
      and_true, zero_add, Nat.zero_lt_one, Nat.lt_add_one]
    rfl
  · intro h1 h2
    simp only [postgresDB.ListAuthor.statement, h1, h2, ne_eq, not_true_eq_false,
      not_false_eq_true, if_true, if_false, List.nil_append, List.length_nil, List.length_cons,
      List.length_singleton, gt_iff_lt, Nat.lt_one_iff, List.singleton_append,
      List.cons_append, Prod.mk.injEq, and_true, zero_add, Nat.zero_lt_one, Nat.lt_add_one]
    rfl

theorem listAuthor_statement_witness :
    (postgresDB.ListAuthor quietBackend []
        { Author.zero with FirstName := "Jane" } 10 0).2 =
      [{ sql := "\n        SELECT author_id, first_name, last_name, birth_date, nationality, created_at, updated_at\n        FROM authors\n     WHERE LOWER(first_name) LIKE $1 ORDER BY first_name LIMIT $2 OFFSET $3",
         args := [.text "%jane%", .int 10, .int 0] }] := by
  have h := listAuthor_statement quietBackend [] { Author.zero with FirstName := "Jane" } 10 0
  rw [h.1, h.2.2.1 (by decide) rfl]
  rfl

end AuthorDB
